import Mathlib

/-!
Verification of the Clang-declaration importer (lib/ClangImporter/ImportDecl.cpp).

This file gives a shallow embedding, in Lean 4, of the declaration-import core
implemented in `src/lib/ClangImporter/ImportDecl.cpp`, and proves properties of
that embedding.

Modelling conventions:

* Foreign (Clang) declarations are modelled as a flat id-indexed table
  (`CAst`); each declaration carries its canonical-declaration id, its owning
  declaration context, an optional definition pointer, and a kind payload.
  The modelled kinds are exactly the ones the verified properties exercise
  (enums, enum constants, records, fields, Objective-C interfaces, categories,
  protocols, methods and properties), plus `namespaceCK` (a file-scope context
  whose visitor declines) and `otherCK`, which stands for all foreign kinds
  whose visitors unconditionally return null (using-directives, labels,
  templates, friends, static asserts, blocks, linkage specs, ...).
* Target (Swift) declarations live in an arena indexed by allocation order
  (`IState.arena`); C++ object identity is allocation id, and pointer
  mutation (`setMembers`, `setClangNode`, `setOverriddenDecl`,
  `makeGetter`/`makeSetter`, ...) is arena update.
* The importer's recursion is modelled with an explicit fuel level: `interp n`
  is the record of all mutually recursive operations where every nested call
  runs at level `n - 1`.  All theorems either quantify over sufficient fuel or
  carry a fuel hypothesis discharged at a concrete value by the witness.
* External collaborators that are not part of this source file are modelled
  from the spec and are marked `Modelled from the spec:` in their doc strings:
  identifier translation (`Ext.importName`, spec section 6), low-level type
  translation (`impTypeF` / `impFuncTyF`, spec section 6), qualified name
  lookup into the target AST (`Ext.lookupQualified`, spec sections 4.2/4.3),
  Objective-C method-family classification (`methodFamily`), and selector
  lookup on interfaces (`lookupInstanceMethod` / `lookupClassMethod`).
* Source locations, attribute bags and pattern-variable declaration contexts
  are not modelled (no verified property mentions them).
-/

set_option maxHeartbeats 1000000

namespace ImportDecl


/-! ## Basic string machinery (startsWithWord / isReallyInitMethod) -/

/-- C `islower` in the default locale: ASCII lowercase letters only. -/
def cIsLower (c : Char) : Bool := 'a' ≤ c && c ≤ 'z'

/-- Char-list model of `StringRef::startswith`. -/
def listStarts : List Char → List Char → Bool
  | _, [] => true
  | [], _ :: _ => false
  | a :: as, b :: bs => a == b && listStarts as bs

/-- `startsWithWord` (ImportDecl.cpp:1031): the name starts with the given
word, and the character immediately after the word, if any, is not a
lowercase letter. -/
def startsWithWord (name word : String) : Bool :=
  let n := name.data
  let w := word.data
  if n.length < w.length then false
  else (n.length == w.length || !(match n.get? w.length with
                                  | some c => cIsLower c
                                  | none => false))
       && listStarts n w

/-- An Objective-C selector: number of arguments plus the identifier piece of
each slot (`none` models a null `IdentifierInfo`). -/
structure Selector where
  numArgs : Nat
  parts : List (Option String)

deriving DecidableEq, Repr

/-- The first slot's identifier, as `getIdentifierInfoForSlot(0)` returns it. -/
def Selector.first (sel : Selector) : Option String :=
  match sel.parts.get? 0 with
  | some (some s) => some s
  | _ => none

/-! ## Foreign types and target types -/

/-- The foreign (Clang) types the importer core consumes.  `absC n` stands for
any type translated opaquely by the (external) type translator. -/
inductive CType
  | intC
  | voidC
  | tagC (declId : Nat)
  | absC (n : Nat)

deriving DecidableEq, Repr

/-- Target (Swift) types.  Tuple types are encoded as cons lists
(`tupleNilT` / `tupleConsT`); tuple-element labels are not modelled, so
`getUnlabeledType` is the identity. -/
inductive TType
  | intT
  | namedT (declId : Nat)
  | metaT (t : TType)
  | fnT (dom cod : TType)
  | tupleNilT
  | tupleConsT (head tail : TType)
  | selfT (protoId : Nat)
  | absT (n : Nat)

deriving DecidableEq, Repr

/-- Build a tuple type from a list of element types. -/
def mkTupleT (ts : List TType) : TType := ts.foldr TType.tupleConsT TType.tupleNilT

/-- `castTo<FunctionType>()->getResult()`: result type of a function type. -/
def TType.fnResult : TType → Option TType
  | .fnT _ r => some r
  | _ => none

/-- `castTo<FunctionType>()->getInput()`: input type of a function type. -/
def TType.fnInput : TType → Option TType
  | .fnT d _ => some d
  | _ => none

/-! ## Target patterns and expressions -/

/-- Target patterns, as used for parameter lists.  Variable declarations
inside patterns are modelled by the bound name alone, so `Pattern::clone`
is the identity. -/
inductive Pat
  | namedP (nm : String) (ty : TType)
  | typedP (sub : Pat) (ty : TType)
  | tupleP (fields : List Pat) (ty : TType)

/-- The type carried by a pattern (`Pattern::getType`). -/
def Pat.pty : Pat → TType
  | .namedP _ t => t
  | .typedP _ t => t
  | .tupleP _ t => t

/-- The fields of a tuple pattern (`TuplePattern::getFields`); empty when the
pattern is not a tuple. -/
def Pat.fields : Pat → List Pat
  | .tupleP fs _ => fs
  | _ => []

/-- Target expressions, only detailed enough to record the synthesized bodies
this file reasons about (constant getters, constructor alloc bodies). -/
inductive TExpr
  | intLit (magnitude : Nat)
  | minusApp (e : TExpr)
  | metatypeE (ty : TType)
  | callE (fn arg : TExpr)
  | dotCallE (fn arg : TExpr)
  | declRefE (target : Nat)
  | downcastE (e : TExpr) (ty : TType)
  | unitE

deriving DecidableEq, Repr

/-! ## Target declarations (the arena) -/

/-- Target declaration contexts: the Clang module (`firstClangModule`, for
translation-unit scope) or another target declaration. -/
inductive TCtx
  | clangModule
  | inDecl (declId : Nat)

deriving DecidableEq, Repr

/-- Payload of a target `FuncDecl`. -/
structure FuncData where
  ty : TType
  argPats : List Pat
  bodyPats : List Pat
  isStat : Bool
  body : Option TExpr := none
  overridden : Option Nat := none
  getterOf : Option Nat := none
  setterOf : Option Nat := none

/-- Payload of a target `ConstructorDecl`. -/
structure CtorData where
  allocTy : TType
  initTy : TType
  argPat : Pat
  body : Option TExpr := none

/-- Payload of a target `SubscriptDecl`. -/
structure SubData where
  indices : Pat
  elemTy : TType
  ty : TType
  getterF : Nat
  setterF : Option Nat
  overridden : Option Nat := none

/-- Payload of a target `VarDecl`. -/
structure VarData where
  ty : TType
  getterF : Option Nat := none
  setterF : Option Nat := none
  overridden : Option Nat := none

/-- The kinds of target declarations produced by the importer. -/
inductive TDeclKind
  | typeAliasK (underlying : TType)
  | structK (members : List Nat)
  | enumK (members : List Nat)
  | classK (superTy : Option TType) (protos : List Nat) (members : List Nat)
           (exts : List Nat)
  | protocolK (protos : List Nat) (members : List Nat)
  | extK (ofClass : Nat) (protos : List Nat) (members : List Nat)
  | funcK (f : FuncData)
  | ctorK (c : CtorData)
  | subK (sub : SubData)
  | varK (v : VarData)
  | patBindK (p : Pat)
  | assocTypeK
  | enumElemK (ty : TType)

/-- Coarse kind tag, used to state which kind of declaration a produced
member is. -/
inductive KTag
  | typeAliasTag | structTag | enumTag | classTag | protocolTag | extTag
  | funcTag | ctorTag | subTag | varTag | patBindTag | assocTypeTag
  | enumElemTag

deriving DecidableEq, Repr

/-- Tag of a declaration kind. -/
def TDeclKind.tag : TDeclKind → KTag
  | .typeAliasK _ => .typeAliasTag
  | .structK _ => .structTag
  | .enumK _ => .enumTag
  | .classK _ _ _ _ => .classTag
  | .protocolK _ _ => .protocolTag
  | .extK _ _ _ => .extTag
  | .funcK _ => .funcTag
  | .ctorK _ => .ctorTag
  | .subK _ => .subTag
  | .varK _ => .varTag
  | .patBindK _ => .patBindTag
  | .assocTypeK => .assocTypeTag
  | .enumElemK _ => .enumElemTag

/-- A target declaration: name, owning context, back-link to the originating
foreign declaration, and kind payload. -/
structure TDeclData where
  name : String
  ctx : TCtx
  clangNode : Option Nat := none
  kind : TDeclKind

/-- Member list of a nominal/extension target declaration. -/
def TDeclKind.membersOf : TDeclKind → List Nat
  | .structK ms => ms
  | .enumK ms => ms
  | .classK _ _ ms _ => ms
  | .protocolK _ ms => ms
  | .extK _ _ ms => ms
  | _ => []

/-! ## The foreign (Clang) AST -/

/-- A foreign declaration context: the translation unit or another
declaration. -/
inductive CCtx
  | tu
  | inDecl (declId : Nat)

deriving DecidableEq, Repr

/-- A formal parameter of a foreign function or method. -/
structure CParam where
  pname : String
  pty : CType

deriving DecidableEq, Repr

/-- Data of a foreign enumeration (name, associated typedef name for
anonymous enums, underlying integer type, enumerator declaration ids). -/
structure EnumData where
  ename : Option String
  typedefName : Option String
  intTy : CType
  enumerators : List Nat

deriving DecidableEq, Repr

/-- Data of a foreign enumerator (`EnumConstantDecl`). -/
structure EnumConstData where
  cname : Option String
  val : Int

deriving DecidableEq, Repr

/-- Data of a foreign record, with the flags the visitor queries before
looking at the definition, and the member ids of the definition. -/
structure RecData where
  isUnion : Bool
  isIface : Bool
  isAnonSU : Bool
  rname : Option String
  typedefName : Option String
  mems : List Nat

deriving DecidableEq, Repr

/-- Data of a foreign record field. -/
structure FieldData where
  fname : Option String
  fty : CType
  isAnonSU : Bool

deriving DecidableEq, Repr

/-- Data of a foreign Objective-C interface. -/
structure InterfaceData where
  iname : Option String
  superC : Option Nat
  protos : List Nat
  mems : List Nat
  cats : List Nat

deriving DecidableEq, Repr

/-- Data of a foreign Objective-C category. -/
structure CatData where
  classI : Nat
  protos : List Nat
  mems : List Nat

deriving DecidableEq, Repr

/-- Data of a foreign Objective-C protocol. -/
structure ProtoData where
  pname : Option String
  protos : List Nat
  mems : List Nat

deriving DecidableEq, Repr

/-- Data of a foreign Objective-C method.  `propertyOf` models the read-only
AST query `findPropertyDecl()`. -/
structure MethodData where
  sel : Selector
  instanceM : Bool
  params : List CParam
  resTy : CType
  variadic : Bool
  propertyOf : Option Nat := none

deriving DecidableEq, Repr

/-- Data of a foreign Objective-C property. -/
structure PropData where
  pname : Option String
  ty : CType
  getterM : Nat
  setterM : Option Nat

deriving DecidableEq, Repr

/-- Foreign declaration kinds.  `otherCK` stands for every foreign kind whose
visitor unconditionally returns null (using directives, labels, templates,
friends, static asserts, blocks, linkage specifications, compatibility
aliases, property implementations, ...). -/
inductive CDeclKind
  | enumCK (e : EnumData)
  | enumConstCK (c : EnumConstData)
  | recordCK (r : RecData)
  | fieldCK (f : FieldData)
  | ifaceCK (i : InterfaceData)
  | catCK (c : CatData)
  | protoCK (pr : ProtoData)
  | methodCK (m : MethodData)
  | propCK (p : PropData)
  | namespaceCK
  | otherCK

deriving DecidableEq, Repr

/-- A foreign declaration: canonical-declaration id, owning context,
definition pointer (`getDefinition`, `none` for forward-only declarations),
and kind payload. -/
structure CDecl where
  canon : Nat
  pctx : CCtx
  defn : Option Nat := none
  kind : CDeclKind

deriving DecidableEq, Repr

/-- The foreign AST: an id-indexed declaration table plus an upper bound on
declaration ids, used to bound parent-chain and superclass-chain walks. -/
structure CAst where
  decls : Nat → Option CDecl
  bound : Nat

/-- Is the context a file context (`DeclContext::isFileContext`)?  True for
the translation unit and for namespaces. -/
def isFileContext (ast : CAst) : CCtx → Bool
  | .tu => true
  | .inDecl i =>
    match ast.decls i with
    | some d => match d.kind with
                | .namespaceCK => true
                | _ => false
    | none => false

/-- Parent context of a foreign context (`DeclContext::getParent`). -/
def ctxParent (ast : CAst) : CCtx → Option CCtx
  | .tu => none
  | .inDecl i => (ast.decls i).map (·.pctx)

/-- The `while (!clangDC->isFileContext()) clangDC = clangDC->getParent()`
walk of `VisitEnumConstantDecl`, bounded by fuel. -/
def nearestFileCtx (ast : CAst) : Nat → CCtx → Option CCtx
  | 0, _ => none
  | n + 1, c =>
    if isFileContext ast c then some c
    else match ctxParent ast c with
         | some c' => nearestFileCtx ast n c'
         | none => none

/-! ## Importer state -/

/-- Update one key of a function-encoded finite map. -/
def upd {α β : Type} [DecidableEq α] (m : α → Option β) (k : α) (v : β) :
    α → Option β :=
  fun x => if x = k then some v else m x

/-- Key of the subscript cache: the (getter, setter) function pair,
either side possibly null. -/
abbrev SKey := Option Nat × Option Nat

/-- The mutable state of `ClangImporter::Implementation` that this file
models: the target arena, the declaration cache (`ImportedDecls`), the
protocol-mirroring cache (`ImportedProtocolDecls`), the subscript cache
(`Subscripts`) and the external-definitions root set. -/
structure IState where
  nextId : Nat
  arena : Nat → Option TDeclData
  cache : Nat → Option (Option Nat)
  mirrored : Nat × TCtx → Option (Option Nat)
  subs : SKey → Option Nat
  externals : List Nat

/-- The empty importer state. -/
def initState : IState :=
  { nextId := 0, arena := fun _ => none, cache := fun _ => none,
    mirrored := fun _ => none, subs := fun _ => none, externals := [] }

/-- Allocate a fresh target declaration (`new (Impl.SwiftContext) ...`). -/
def IState.alloc (s : IState) (d : TDeclData) : Nat × IState :=
  (s.nextId,
   { s with nextId := s.nextId + 1, arena := upd s.arena s.nextId d })

/-- Mutate an existing target declaration in place. -/
def IState.mut (s : IState) (t : Nat) (f : TDeclData → TDeclData) : IState :=
  match s.arena t with
  | some d => { s with arena := upd s.arena t (f d) }
  | none => s

/-- `Decl::setClangNode`. -/
def setClangNodeS (s : IState) (t : Nat) (c : Nat) : IState :=
  s.mut t (fun d => { d with clangNode := some c })

/-- `NominalTypeDecl::setMembers` / `ExtensionDecl::setMembers`. -/
def setMembersS (s : IState) (t : Nat) (ms : List Nat) : IState :=
  s.mut t (fun d => { d with kind :=
    match d.kind with
    | .structK _ => .structK ms
    | .enumK _ => .enumK ms
    | .classK su ps _ ex => .classK su ps ms ex
    | .protocolK ps _ => .protocolK ps ms
    | .extK cl ps _ => .extK cl ps ms
    | k => k })

/-- `setProtocols` on a class, protocol or extension. -/
def setProtosS (s : IState) (t : Nat) (ps : List Nat) : IState :=
  s.mut t (fun d => { d with kind :=
    match d.kind with
    | .classK su _ ms ex => .classK su ps ms ex
    | .protocolK _ ms => .protocolK ps ms
    | .extK cl _ ms => .extK cl ps ms
    | k => k })

/-- `ClassDecl::setSuperclass`. -/
def setSuperS (s : IState) (t : Nat) (ty : TType) : IState :=
  s.mut t (fun d => { d with kind :=
    match d.kind with
    | .classK _ ps ms ex => .classK (some ty) ps ms ex
    | k => k })

/-- `ClassDecl::addExtension`. -/
def addExtensionS (s : IState) (t : Nat) (e : Nat) : IState :=
  s.mut t (fun d => { d with kind :=
    match d.kind with
    | .classK su ps ms ex => .classK su ps ms (ex ++ [e])
    | k => k })

/-- `FuncDecl::makeGetter`. -/
def makeGetterS (s : IState) (t : Nat) (of : Nat) : IState :=
  s.mut t (fun d => { d with kind :=
    match d.kind with
    | .funcK f => .funcK { f with getterOf := some of }
    | k => k })

/-- `FuncDecl::makeSetter`. -/
def makeSetterS (s : IState) (t : Nat) (of : Nat) : IState :=
  s.mut t (fun d => { d with kind :=
    match d.kind with
    | .funcK f => .funcK { f with setterOf := some of }
    | k => k })

/-- `setOverriddenDecl` on a function, subscript or variable. -/
def setOverriddenS (s : IState) (t : Nat) (o : Nat) : IState :=
  s.mut t (fun d => { d with kind :=
    match d.kind with
    | .funcK f => .funcK { f with overridden := some o }
    | .subK sb => .subK { sb with overridden := some o }
    | .varK v => .varK { v with overridden := some o }
    | k => k })

/-- `VarDecl::setComputedAccessors`. -/
def setAccessorsS (s : IState) (t : Nat) (g : Nat) (st : Option Nat) :
    IState :=
  s.mut t (fun d => { d with kind :=
    match d.kind with
    | .varK v => .varK { v with getterF := some g, setterF := st }
    | k => k })

/-- `ASTContext::addedExternalDecl`. -/
def addExternalS (s : IState) (t : Nat) : IState :=
  { s with externals := s.externals ++ [t] }

/-! ## External collaborators (modelled from the spec) -/

/-- Modelled from the spec: the external collaborators of the importer core
that the source file consumes but does not define — identifier translation
(`translateIdentifier`, section 6; the empty string signals "cannot be
represented"), whether the standard negation operator is visible to
unqualified lookup (used by `createConstant` for negative literals), and
qualified name lookup into the target AST (`lookupQualified`, used by
property suppression and subscript-override detection, sections 4.2/4.3). -/
structure Ext where
  importName : String → String
  minusFound : Bool
  lookupQualified : TType → String → List Nat

/-- `Impl.importName` on a possibly-absent foreign name: a null `DeclName`
translates to the empty identifier. -/
def extName (ext : Ext) : Option String → String
  | some s => ext.importName s
  | none => ""

/-- Modelled from the spec: protocol names get a disambiguating "Proto"
suffix appended after successful translation (section 6). -/
def extNameProto (ext : Ext) (n : Option String) : String :=
  match extName ext n with
  | "" => ""
  | s => s ++ "Proto"

/-! ## Initializer recognition and method families -/

/-- `isReallyInitMethod` (ImportDecl.cpp:1039): an instance method whose
selector's first slot is the whole word "init". -/
def isReallyInitMethod (m : MethodData) : Bool :=
  if !m.instanceM then false
  else match m.sel.first with
       | none => false
       | some f => startsWithWord f "init"

/-- The Objective-C method families (`clang::ObjCMethodFamily`) that the
visitor's special-method dispatch distinguishes. -/
inductive OMF
  | noneF | allocF | autoreleaseF | copyF | deallocF | finalizeF | initF
  | mutableCopyF | newF | performSelectorF | releaseF | retainF
  | retainCountF | selfF

deriving DecidableEq, Repr

/-- Modelled from the spec: `ObjCMethodDecl::getMethodFamily`, the foreign
AST's selector-based family classification (the source file only consumes
it).  The family is decided by the first selector word, matched as a whole
word, with the longer family names tried before their prefixes. -/
def methodFamily (m : MethodData) : OMF :=
  match m.sel.first with
  | none => .noneF
  | some f =>
    if startsWithWord f "alloc" then .allocF
    else if startsWithWord f "autorelease" then .autoreleaseF
    else if startsWithWord f "mutableCopy" then .mutableCopyF
    else if startsWithWord f "copy" then .copyF
    else if startsWithWord f "dealloc" then .deallocF
    else if startsWithWord f "finalize" then .finalizeF
    else if startsWithWord f "init" then .initF
    else if startsWithWord f "new" then .newF
    else if startsWithWord f "performSelector" then .performSelectorF
    else if startsWithWord f "release" then .releaseF
    else if startsWithWord f "retainCount" then .retainCountF
    else if startsWithWord f "retain" then .retainF
    else if startsWithWord f "self" then .selfF
    else .noneF

/-- The four well-known subscript accessor selectors stored on
`ClangImporter::Implementation`. -/
def objectAtIndexedSubscript : Selector :=
  ⟨1, [some "objectAtIndexedSubscript"]⟩

/-- `setObject:atIndexedSubscript:`. -/
def setObjectAtIndexedSubscript : Selector :=
  ⟨2, [some "setObject", some "atIndexedSubscript"]⟩

/-- `objectForKeyedSubscript:`. -/
def objectForKeyedSubscript : Selector :=
  ⟨1, [some "objectForKeyedSubscript"]⟩

/-- `setObject:forKeyedSubscript:`. -/
def setObjectForKeyedSubscript : Selector :=
  ⟨2, [some "setObject", some "forKeyedSubscript"]⟩

/-- The nullary `alloc` selector formed by `importConstructor`. -/
def allocSelector : Selector := ⟨0, [some "alloc"]⟩

/-! ## Enum classification -/

/-- `ClangImporter::Implementation::EnumKind`. -/
inductive EnumKind
  | constants
  | options
  | enumEK

deriving DecidableEq, Repr

/-- `classifyEnum` (ImportDecl.cpp:2178): the imported name is taken from the
declared name, else from the typedef name of an anonymous enum; an empty
name classifies as `Constants` and every other enum as `Options` (the
target-enum strategy is never selected). -/
def classifyEnum (ext : Ext) (e : EnumData) : EnumKind :=
  let name : String :=
    match e.ename with
    | some n => ext.importName n
    | none =>
      match e.typedefName with
      | some n => ext.importName n
      | none => ""
  if name = "" then .constants
  else .options

/-! ## The well-known-type resolver (getSwiftStdlibType) -/

/-- `MappedCTypeKind` (from ImporterImpl): the shape check each table entry
requires of the underlying C type. -/
inductive MappedCTypeKind
  | unsignedIntM | signedIntM | floatIEEEsingleM | floatIEEEdoubleM
  | floatX87DoubleExtendedM | objcBoolM | objcSelM

deriving DecidableEq, Repr

/-- Float semantics of a C floating type (`getFloatTypeSemantics`). -/
inductive FloatSem
  | ieeeSingle | ieeeDouble | x87DoubleExtended | otherSem

deriving DecidableEq, Repr

/-- Which languages a table entry applies to (`MappedLanguages`): all, or
only when Objective-C 1 is enabled. -/
inductive MappedLanguages
  | allL | objC1L

deriving DecidableEq, Repr

/-- One entry of the well-known-type table (MappedTypes.def; the table
itself is external to the source file, so the resolver is verified for an
arbitrary table). -/
structure MappedTypeEntry where
  cName : String
  kindM : MappedCTypeKind
  bitwidth : Nat
  swiftModuleName : String
  swiftTypeName : String
  languages : MappedLanguages
  canBeMissing : Bool

deriving DecidableEq, Repr

/-- The properties of the typedef's underlying C type that
`getSwiftStdlibType` queries. -/
structure CTypeProps where
  size : Nat
  isUnsignedInt : Bool
  isSignedInt : Bool
  isFloating : Bool
  floatSem : FloatSem
  isObjCBool : Bool
  pointeeIsObjCSel : Option Bool

deriving DecidableEq, Repr

/-- The environment `getSwiftStdlibType` resolves modules and types in:
language options plus module/type lookup (external collaborators). -/
structure StdlibEnv where
  objC1Enabled : Bool
  swiftModule : Option Nat
  namedModule : String → Option Nat
  namedSwiftType : Nat → String → Option Nat

deriving Inhabited

/-- The per-entry verification checks of `getSwiftStdlibType`
(ImportDecl.cpp:101-171): language applicability, bit width, and the
kind-specific shape check. -/
def stdlibChecksPass (env : StdlibEnv) (e : MappedTypeEntry)
    (u : CTypeProps) : Bool :=
  (e.languages == .allL || env.objC1Enabled) &&
  (e.bitwidth == 0 || e.bitwidth == u.size) &&
  (match e.kindM with
   | .unsignedIntM => u.isUnsignedInt
   | .signedIntM => u.isSignedInt
   | .floatIEEEsingleM => u.isFloating && u.floatSem == .ieeeSingle
   | .floatIEEEdoubleM => u.isFloating && u.floatSem == .ieeeDouble
   | .floatX87DoubleExtendedM => u.isFloating && u.floatSem == .x87DoubleExtended
   | .objcBoolM => u.isObjCBool
   | .objcSelM => match u.pointeeIsObjCSel with
                  | some b => b
                  | none => true)

/-- `getSwiftStdlibType` (ImportDecl.cpp:60-192): table lookup by name, the
verification checks (any failure returns "not well-known" without error),
then module and type resolution (whose failure is the only error path).
Returns ((swift type, swift type name), IsError). -/
def getSwiftStdlibType (table : List MappedTypeEntry) (env : StdlibEnv)
    (name : String) (u : CTypeProps) : (Option Nat × String) × Bool :=
  match table.find? (fun e => e.cName == name) with
  | none => ((none, ""), false)
  | some e =>
    if e.languages != .allL && !env.objC1Enabled then ((none, ""), false)
    else if e.bitwidth != 0 && e.bitwidth != u.size then ((none, ""), false)
    else match e.kindM with
      | .unsignedIntM =>
        if !u.isUnsignedInt then ((none, ""), false)
        else getSwiftStdlibFinish env e
      | .signedIntM =>
        if !u.isSignedInt then ((none, ""), false)
        else getSwiftStdlibFinish env e
      | .floatIEEEsingleM =>
        if !u.isFloating then ((none, ""), false)
        else if u.floatSem != .ieeeSingle then ((none, ""), false)
        else getSwiftStdlibFinish env e
      | .floatIEEEdoubleM =>
        if !u.isFloating then ((none, ""), false)
        else if u.floatSem != .ieeeDouble then ((none, ""), false)
        else getSwiftStdlibFinish env e
      | .floatX87DoubleExtendedM =>
        if !u.isFloating then ((none, ""), false)
        else if u.floatSem != .x87DoubleExtended then ((none, ""), false)
        else getSwiftStdlibFinish env e
      | .objcBoolM =>
        if !u.isObjCBool then ((none, ""), false)
        else getSwiftStdlibFinish env e
      | .objcSelM =>
        match u.pointeeIsObjCSel with
        | some b =>
          if !b then ((none, ""), false) else getSwiftStdlibFinish env e
        | none => getSwiftStdlibFinish env e
where
  /-- Module and type resolution (ImportDecl.cpp:173-191). -/
  getSwiftStdlibFinish (env : StdlibEnv) (e : MappedTypeEntry) :
      (Option Nat × String) × Bool :=
    let m : Option Nat :=
      if e.swiftModuleName = "swift" then env.swiftModule
      else env.namedModule e.swiftModuleName
    match m with
    | none => ((none, ""), true)
    | some mo =>
      match env.namedSwiftType mo e.swiftTypeName with
      | none =>
        if !e.canBeMissing then ((none, ""), true)
        else ((none, e.swiftTypeName), false)
      | some t => ((some t, e.swiftTypeName), false)

/-- The module `getSwiftStdlibType` resolves an entry in. -/
def stdlibModuleOf (env : StdlibEnv) (e : MappedTypeEntry) : Option Nat :=
  if e.swiftModuleName = "swift" then env.swiftModule
  else env.namedModule e.swiftModuleName

/-- The module, or the non-optional named type, cannot be located. -/
def stdlibResolutionFails (env : StdlibEnv) (e : MappedTypeEntry) : Prop :=
  match stdlibModuleOf env e with
  | none => True
  | some mo =>
    env.namedSwiftType mo e.swiftTypeName = none ∧ e.canBeMissing = false

/-! ## Lemmas: classifyEnum -/

/-! ## Foreign-AST queries -/

/-- `ObjCContainerDecl::getMethod(sel, isInstance)`: a directly declared
method of the container with the given selector and instance-ness. -/
def getMethodDirect (ast : CAst) (containerId : Nat) (sel : Selector)
    (isInst : Bool) : Option Nat :=
  match ast.decls containerId with
  | none => none
  | some d =>
    let mems : List Nat :=
      match d.kind with
      | .ifaceCK i => i.mems
      | .catCK c => c.mems
      | .protoCK pr => pr.mems
      | _ => []
    mems.find? (fun mid =>
      match ast.decls mid with
      | some md =>
        match md.kind with
        | .methodCK m => m.sel == sel && m.instanceM == isInst
        | _ => false
      | none => false)

/-- Modelled from the spec: `ObjCInterfaceDecl::lookupMethod`, the foreign
AST's selector lookup used to find counterpart accessors and overridden
methods (sections 4.2/4.3) — searches the class itself, its visible
categories, its protocols, then the superclass chain. -/
def lookupMethodChain (ast : CAst) :
    Nat → Nat → Selector → Bool → Option Nat
  | 0, _, _, _ => none
  | n + 1, ifaceId, sel, isInst =>
    match ast.decls ifaceId with
    | some d =>
      match d.kind with
      | .ifaceCK i =>
        match getMethodDirect ast ifaceId sel isInst with
        | some m => some m
        | none =>
          match i.cats.findSome?
              (fun c => getMethodDirect ast c sel isInst) with
          | some m => some m
          | none =>
            match i.protos.findSome?
                (fun pr => getMethodDirect ast pr sel isInst) with
            | some m => some m
            | none =>
              match i.superC with
              | some sc => lookupMethodChain ast n sc sel isInst
              | none => none
      | _ => none
    | none => none

/-- `ObjCInterfaceDecl::lookupInstanceMethod`. -/
def lookupInstanceMethod (ast : CAst) (ifaceId : Nat) (sel : Selector) :
    Option Nat :=
  lookupMethodChain ast (ast.bound + 1) ifaceId sel true

/-- `ObjCInterfaceDecl::lookupClassMethod`. -/
def lookupClassMethod (ast : CAst) (ifaceId : Nat) (sel : Selector) :
    Option Nat :=
  lookupMethodChain ast (ast.bound + 1) ifaceId sel false

/-- `hasMethodShallow` (ImportDecl.cpp:1775): the class or one of its
visible categories directly declares a method with this selector. -/
def hasMethodShallow (ast : CAst) (sel : Selector) (isInst : Bool)
    (objcClassId : Nat) : Bool :=
  match ast.decls objcClassId with
  | some d =>
    match d.kind with
    | .ifaceCK i =>
      (getMethodDirect ast objcClassId sel isInst).isSome ||
        i.cats.any (fun c => (getMethodDirect ast c sel isInst).isSome)
    | _ => false
  | none => false

/-- `ObjCMethodDecl::getClassInterface`: the interface a method belongs to
(directly, or through its category); null for protocol methods. -/
def getClassInterfaceOf (ast : CAst) (d : CDecl) : Option Nat :=
  match d.pctx with
  | .tu => none
  | .inDecl i =>
    match ast.decls i with
    | some cd =>
      match cd.kind with
      | .ifaceCK _ => some i
      | .catCK c => some c.classI
      | _ => none
    | none => none

/-! ## Target-context queries -/

/-- `DeclContext::getDeclaredTypeOfContext` over the target arena. -/
def declaredTypeOfContext (s : IState) : TCtx → Option TType
  | .clangModule => none
  | .inDecl t =>
    match s.arena t with
    | some d =>
      match d.kind with
      | .structK _ => some (.namedT t)
      | .enumK _ => some (.namedT t)
      | .classK _ _ _ _ => some (.namedT t)
      | .protocolK _ _ => some (.namedT t)
      | .extK cl _ _ => some (.namedT cl)
      | _ => none
    | none => none

/-- `getSelfTypeForContext` (ImportDecl.cpp:1661): the protocol `Self`
archetype inside protocols, the declared type of the context otherwise. -/
def getSelfTypeForContext (s : IState) (dc : TCtx) : Option TType :=
  match dc with
  | .inDecl t =>
    match s.arena t with
    | some d =>
      match d.kind with
      | .protocolK _ _ => some (.selfT t)
      | _ => declaredTypeOfContext s dc
    | none => none
  | _ => declaredTypeOfContext s dc

/-- The implicit `self` parameter pattern. -/
def mkSelfPat (ty : TType) : Pat := .typedP (.namedP "self" ty) ty

/-! ## Synthesis helpers -/

/-- `ConstantConvertKind`. -/
inductive ConstantConvertKind
  | noneCK | constructionCK | coerceCK | downcastCK

deriving DecidableEq, Repr

/-- `createValueConstructor` (ImportDecl.cpp:298): a constructor whose
parameters mirror the struct's stored members.  The assignment-statement
body is not modelled (`body := none`); only the constructor's shape is
claimed anywhere. -/
def createValueConstructor (s : IState) (structId : Nat)
    (memberIds : List Nat) : Nat × IState :=
  let selfTy : TType := .namedT structId
  let selfMetaTy : TType := .metaT selfTy
  let stored : List (String × TType) :=
    memberIds.foldr
      (fun mid acc =>
        match s.arena mid with
        | some d =>
          match d.kind with
          | .varK v =>
            match v.getterF with
            | none => (d.name, v.ty) :: acc
            | some _ => acc
          | _ => acc
        | none => acc) []
  let paramPats : List Pat :=
    stored.map (fun nt => .typedP (.namedP nt.1 nt.2) nt.2)
  let paramTy : TType := mkTupleT (stored.map (·.2))
  let paramPattern : Pat := .tupleP paramPats paramTy
  let fnTy : TType := .fnT paramTy selfTy
  let (ctorId, s1) := s.alloc
    { name := "init", ctx := .inDecl structId,
      kind := .ctorK { allocTy := .fnT selfMetaTy fnTy,
                       initTy := .fnT selfTy fnTy,
                       argPat := paramPattern } }
  (ctorId, addExternalS s1 ctorId)

/-- `createConstant` (ImportDecl.cpp:2275): a variable with a synthesized
getter returning the printed literal, negated through the looked-up `-`
operator when negative, wrapped according to the conversion kind. -/
def createConstant (ext : Ext) (s : IState) (name : String) (dc : TCtx)
    (ty : TType) (value : Int) (convertKind : ConstantConvertKind) :
    Option Nat × IState :=
  let (varId, s1) := s.alloc { name := name, ctx := dc, kind := .varK { ty := ty } }
  let getterArgs : List Pat := [.tupleP [] .tupleNilT]
  let getterType : TType := .fnT .tupleNilT ty
  let (funcId, s2) := s1.alloc
    { name := "", ctx := dc,
      kind := .funcK { ty := getterType, argPats := getterArgs,
                       bodyPats := getterArgs, isStat := false } }
  let base : TExpr := .intLit value.natAbs
  let exprOpt : Option TExpr :=
    if value < 0 then
      if ext.minusFound then some (.minusApp base) else none
    else some base
  match exprOpt with
  | none => (none, s2)
  | some ex =>
    let ex2 : TExpr :=
      match convertKind with
      | .noneCK => ex
      | .constructionCK => .callE (.metatypeE ty) ex
      | .coerceCK => ex
      | .downcastCK => .downcastE ex ty
    let s3 := s2.mut funcId (fun d => { d with kind :=
      match d.kind with
      | .funcK f => .funcK { f with body := some ex2 }
      | k => k })
    let s4 := makeGetterS s3 funcId varId
    let s5 := setAccessorsS s4 varId funcId none
    (some varId, addExternalS s5 funcId)

/-- `buildGetterThunk` (ImportDecl.cpp:1322); the thunk's declaration
context is the getter's own context. -/
def buildGetterThunk (s : IState) (getterId : Nat) (dc : TCtx)
    (indices : Option Pat) : Option Nat × IState :=
  match s.arena getterId with
  | some gd =>
    match gd.kind with
    | .funcK f =>
      match f.ty with
      | .fnT _ (.fnT _ elemTy) =>
        match declaredTypeOfContext s dc with
        | some selfTy =>
          let args0 : List Pat := [mkSelfPat selfTy]
          let args1 : List Pat :=
            match indices with
            | some i => args0 ++ [.tupleP [i] (mkTupleT [i.pty])]
            | none => args0
          let args : List Pat := args1 ++ [.tupleP [] .tupleNilT]
          let getterType : TType :=
            args.foldr (fun pa acc => .fnT pa.pty acc) elemTy
          let (tid, s1) := s.alloc
            { name := "", ctx := gd.ctx,
              kind := .funcK { ty := getterType, argPats := args,
                               bodyPats := args, isStat := false } }
          (some tid, s1)
        | none => (none, s)
      | _ => (none, s)
    | _ => (none, s)
  | none => (none, s)

/-- `buildSetterThunk` (ImportDecl.cpp:1388); the thunk's declaration
context is the passed context. -/
def buildSetterThunk (s : IState) (setterId : Nat) (dc : TCtx)
    (indices : Option Pat) : Option Nat × IState :=
  match s.arena setterId with
  | some sd =>
    match sd.kind with
    | .funcK f =>
      match f.bodyPats.get? 1 with
      | some (.tupleP fs _) =>
        match fs.get? 0 with
        | some valuePattern =>
          match declaredTypeOfContext s dc with
          | some selfTy =>
            let args0 : List Pat := [mkSelfPat selfTy]
            let args1 : List Pat :=
              match indices with
              | some i => args0 ++ [.tupleP [i] (mkTupleT [i.pty])]
              | none => args0
            let args : List Pat :=
              args1 ++ [.tupleP [valuePattern] (mkTupleT [valuePattern.pty])]
            let setterType : TType :=
              args.foldr (fun pa acc => .fnT pa.pty acc) .tupleNilT
            let (tid, s1) := s.alloc
              { name := "", ctx := dc,
                kind := .funcK { ty := setterType, argPats := args,
                                 bodyPats := args, isStat := false } }
            (some tid, s1)
          | none => (none, s)
        | none => (none, s)
      | _ => (none, s)
    | _ => (none, s)
  | none => (none, s)

/-! ## The importer, one fuel level at a time

`Interp` is the record of all mutually recursive importer operations; every
nested call inside an operation runs through the previous fuel level `p`. -/

/-- The mutually recursive operations of the importer core. -/
structure Interp where
  impDecl : IState → Nat → Option Nat × IState
  impMirr : IState → Nat → TCtx → Option Nat × IState
  impDeclCtx : IState → CCtx → Option TCtx × IState
  impTy : IState → CType → Option TType × IState
  visitD : IState → Nat → Option Nat × Bool × IState
  visitMethodDC : IState → Nat → TCtx → Option Nat × Bool × IState
  impFuncTy : IState → CType → List CParam → Bool → List Pat → List Pat →
    Option (TType × List Pat × List Pat) × IState
  impSpecial : IState → Nat → TCtx → Option Nat × IState
  impCtor : IState → Nat → Nat → TCtx → Option Nat × IState
  impSub : IState → Nat → Nat → TCtx → Option Nat × IState
  impMembers : IState → Nat → TCtx → List Nat × IState
  impProtos : IState → List Nat → List Nat × IState
  impInherited : IState → Nat → TCtx → List Nat → List Nat × IState
  impMirrMembers : IState → Nat → TCtx → List Nat → List Nat →
    List Nat × IState

/-- The fuel-exhausted level: everything declines without touching state. -/
def failInterp : Interp where
  impDecl := fun s _ => (none, s)
  impMirr := fun s _ _ => (none, s)
  impDeclCtx := fun s _ => (none, s)
  impTy := fun s _ => (none, s)
  visitD := fun s _ => (none, false, s)
  visitMethodDC := fun s _ _ => (none, false, s)
  impFuncTy := fun s _ _ _ _ _ => (none, s)
  impSpecial := fun s _ _ => (none, s)
  impCtor := fun s _ _ _ => (none, s)
  impSub := fun s _ _ _ => (none, s)
  impMembers := fun s _ _ => ([], s)
  impProtos := fun s _ => ([], s)
  impInherited := fun s _ _ ms => (ms, s)
  impMirrMembers := fun s _ _ _ ms => (ms, s)

/-- Modelled from the spec: `translateType` (`Impl.importType`, section 6).
Builtin types translate structurally; a tag type translates to the imported
nominal type, except that the tag type of a bare-constants enum maps to the
enum's underlying integer type (sections 4.2(c) and 4.4). -/
def impTyF (ast : CAst) (ext : Ext) (p : Interp) (s : IState) (t : CType) :
    Option TType × IState :=
  match t with
  | .intC => (some .intT, s)
  | .voidC => (some .tupleNilT, s)
  | .absC n => (some (.absT n), s)
  | .tagC i =>
    match ast.decls i with
    | none => (none, s)
    | some d =>
      match d.kind with
      | .enumCK e =>
        if classifyEnum ext e = .constants then p.impTy s e.intTy
        else
          match p.impDecl s i with
          | (some tid, s') =>
            match s'.arena tid with
            | some td =>
              match td.kind with
              | .structK _ => (some (.namedT tid), s')
              | .enumK _ => (some (.namedT tid), s')
              | _ => (none, s')
            | none => (none, s')
          | (none, s') => (none, s')
      | .recordCK _ =>
        match p.impDecl s i with
        | (some tid, s') =>
          match s'.arena tid with
          | some td =>
            match td.kind with
            | .structK _ => (some (.namedT tid), s')
            | _ => (none, s')
          | none => (none, s')
        | (none, s') => (none, s')
      | .ifaceCK _ =>
        match p.impDecl s i with
        | (some tid, s') =>
          match s'.arena tid with
          | some td =>
            match td.kind with
            | .classK _ _ _ _ => (some (.namedT tid), s')
            | _ => (none, s')
          | none => (none, s')
        | (none, s') => (none, s')
      | _ => (none, s)

/-- Modelled from the spec: `translateFunctionType`
(`Impl.importFunctionType`, section 6) — translates parameter and result
types as one unit, appends the parameter tuple pattern to both pattern
lists, and declines variadic signatures; selector-derived argument labels
are not modelled. -/
def impFuncTyF (_ast : CAst) (_ext : Ext) (p : Interp) (s : IState)
    (resTy : CType) (params : List CParam) (variadic : Bool)
    (aPats bPats : List Pat) :
    Option (TType × List Pat × List Pat) × IState :=
  if variadic then (none, s)
  else
    let step := fun (acc : Option (List (String × TType)) × IState)
        (pa : CParam) =>
      match acc with
      | (none, st) => (none, st)
      | (some l, st) =>
        match p.impTy st pa.pty with
        | (some t, st') => (some (l ++ [(pa.pname, t)]), st')
        | (none, st') => (none, st')
    match params.foldl step (some [], s) with
    | (none, s1) => (none, s1)
    | (some l, s1) =>
      match p.impTy s1 resTy with
      | (none, s2) => (none, s2)
      | (some r, s2) =>
        let pats : List Pat :=
          l.map (fun nt => .typedP (.namedP nt.1 nt.2) nt.2)
        let tupleTy : TType := mkTupleT (l.map (·.2))
        let tpat : Pat := .tupleP pats tupleTy
        (some (.fnT tupleTy r, aPats ++ [tpat], bPats ++ [tpat]), s2)

/-- `importDeclContext` (ImportDecl.cpp:2241). -/
def impDeclCtxF (ast : CAst) (_ext : Ext) (p : Interp) (s : IState)
    (c : CCtx) : Option TCtx × IState :=
  match c with
  | .tu => (some .clangModule, s)
  | .inDecl i =>
    match ast.decls i with
    | none => (none, s)
    | some _ =>
      match p.impDecl s i with
      | (none, s') => (none, s')
      | (some t, s') =>
        match s'.arena t with
        | some td =>
          match td.kind with
          | .structK _ => (some (.inDecl t), s')
          | .enumK _ => (some (.inDecl t), s')
          | .classK _ _ _ _ => (some (.inDecl t), s')
          | .protocolK _ _ => (some (.inDecl t), s')
          | .extK _ _ _ => (some (.inDecl t), s')
          | .ctorK _ => (some (.inDecl t), s')
          | _ => (none, s')
        | none => (none, s')

/-- `importDeclContextOf` (ImportDecl.cpp:2266). -/
def impDeclCtxOfF (ast : CAst) (ext : Ext) (p : Interp) (s : IState)
    (d : CDecl) : Option TCtx × IState :=
  match d.pctx with
  | .tu => (some .clangModule, s)
  | c => impDeclCtxF ast ext p s c

/-- `VisitEnumDecl` (ImportDecl.cpp:393). -/
def visitEnumF (ast : CAst) (ext : Ext) (p : Interp) (s : IState)
    (d : CDecl) : Option Nat × Bool × IState :=
  match d.defn with
  | none => (none, true, s)
  | some j =>
    match ast.decls j with
    | none => (none, false, s)
    | some dd =>
      match dd.kind with
      | .enumCK e =>
        let name : String :=
          match e.ename with
          | some n => ext.importName n
          | none =>
            match e.typedefName with
            | some n => ext.importName n
            | none => ""
        if name = "" then (none, false, s)
        else
          match impDeclCtxOfF ast ext p s dd with
          | (none, s1) => (none, false, s1)
          | (some dc, s1) =>
            match classifyEnum ext e with
            | .constants => (none, false, s1)
            | .options =>
              let (sid, s2) := s1.alloc
                { name := name, ctx := dc, kind := .structK [] }
              match p.impTy s2 e.intTy with
              | (none, s3) => (none, false, s3)
              | (some underlying, s3) =>
                let (varId, s4) := s3.alloc
                  { name := "value", ctx := .inDecl sid,
                    kind := .varK { ty := underlying } }
                let varPat : Pat :=
                  .typedP (.namedP "value" underlying) underlying
                let (pbId, s5) := s4.alloc
                  { name := "", ctx := .inDecl sid, kind := .patBindK varPat }
                let (ctorId, s6) := createValueConstructor s5 sid [varId]
                let s7 := setMembersS s6 sid [ctorId, pbId, varId]
                let s8 : IState :=
                  { s7 with cache := upd s7.cache dd.canon (some sid) }
                let s9 := setClangNodeS s8 sid dd.canon
                let s10 := e.enumerators.foldl
                  (fun st ec => (p.impDecl st ec).2) s9
                (some sid, false, s10)
            | .enumEK =>
              let (eid2, s2) := s1.alloc
                { name := name, ctx := dc, kind := .enumK [] }
              let s3 : IState :=
                { s2 with cache := upd s2.cache dd.canon (some eid2) }
              let s4 := setClangNodeS s3 eid2 dd.canon
              let (ms, s5) := e.enumerators.foldl
                (fun (acc : List Nat × IState) ec =>
                  match p.impDecl acc.2 ec with
                  | (some m, st) => (acc.1 ++ [m], st)
                  | (none, st) => (acc.1, st)) ([], s4)
              (some eid2, false, setMembersS s5 eid2 ms)
      | _ => (none, false, s)

/-- `VisitEnumConstantDecl` (ImportDecl.cpp:611). -/
def visitEnumConstF (ast : CAst) (ext : Ext) (p : Interp) (s : IState)
    (d : CDecl) (c : EnumConstData) : Option Nat × Bool × IState :=
  let name := extName ext c.cname
  if name = "" then (none, false, s)
  else
    match d.pctx with
    | .tu => (none, false, s)
    | .inDecl eid =>
      match ast.decls eid with
      | none => (none, false, s)
      | some ed =>
        match ed.kind with
        | .enumCK e =>
          match classifyEnum ext e with
          | .constants =>
            match nearestFileCtx ast (ast.bound + 1) ed.pctx with
            | none => (none, false, s)
            | some fctx =>
              match p.impDeclCtx s fctx with
              | (none, s1) => (none, false, s1)
              | (some dc, s1) =>
                match p.impTy s1 (.tagC eid) with
                | (none, s2) => (none, false, s2)
                | (some ty, s2) =>
                  match s2.cache d.canon with
                  | some r => (r, false, s2)
                  | none =>
                    let (r, s3) :=
                      createConstant ext s2 name dc ty c.val .coerceCK
                    (r, false, { s3 with cache := upd s3.cache d.canon r })
          | .options =>
            match nearestFileCtx ast (ast.bound + 1) ed.pctx with
            | none => (none, false, s)
            | some fctx =>
              match p.impDeclCtx s fctx with
              | (none, s1) => (none, false, s1)
              | (some dc, s1) =>
                match p.impTy s1 (.tagC eid) with
                | (none, s2) => (none, false, s2)
                | (some ty, s2) =>
                  match s2.cache d.canon with
                  | some r => (r, false, s2)
                  | none =>
                    let (r, s3) :=
                      createConstant ext s2 name dc ty c.val .constructionCK
                    (r, false, { s3 with cache := upd s3.cache d.canon r })
          | .enumEK =>
            match impDeclCtxOfF ast ext p s d with
            | (none, s1) => (none, false, s1)
            | (some dc, s1) =>
              match s1.cache d.canon with
              | some r => (r, false, s1)
              | none =>
                match dc with
                | .inDecl tid =>
                  match s1.arena tid with
                  | some td =>
                    match td.kind with
                    | .enumK _ =>
                      let elemTy : TType :=
                        .fnT (.metaT (.namedT tid)) (.namedT tid)
                      let (el, s2) := s1.alloc
                        { name := name, ctx := dc,
                          kind := .enumElemK elemTy }
                      (some el, false,
                       { s2 with cache := upd s2.cache d.canon (some el) })
                    | _ => (none, false, s1)
                  | none => (none, false, s1)
                | _ => (none, false, s1)
        | _ => (none, false, s)

/-- `VisitRecordDecl` (ImportDecl.cpp:506). -/
def visitRecordF (ast : CAst) (ext : Ext) (p : Interp) (s : IState)
    (d : CDecl) (r : RecData) : Option Nat × Bool × IState :=
  if r.isUnion || r.isIface || r.isAnonSU then (none, false, s)
  else
    match d.defn with
    | none => (none, true, s)
    | some j =>
      match ast.decls j with
      | none => (none, false, s)
      | some dd =>
        match dd.kind with
        | .recordCK rr =>
          let name : String :=
            match rr.rname with
            | some n => ext.importName n
            | none =>
              match rr.typedefName with
              | some n => ext.importName n
              | none => ""
          if name = "" then (none, false, s)
          else
            match impDeclCtxOfF ast ext p s dd with
            | (none, s1) => (none, false, s1)
            | (some dc, s1) =>
              let (sid, s2) := s1.alloc
                { name := name, ctx := dc, kind := .structK [] }
              let s3 : IState :=
                { s2 with cache := upd s2.cache dd.canon (some sid) }
              let s4 := setClangNodeS s3 sid dd.canon
              let (ms, s5) := rr.mems.foldl
                (fun (acc : List Nat × IState) mid =>
                  match ast.decls mid with
                  | none => acc
                  | some md =>
                    match md.kind with
                    | .fieldCK f =>
                      if f.isAnonSU then acc
                      else
                        match p.impDecl acc.2 mid with
                        | (some m, st) => (acc.1 ++ [m], st)
                        | (none, st) => (acc.1, st)
                    | _ =>
                      match p.impDecl acc.2 mid with
                      | (some m, st) => (acc.1 ++ [m], st)
                      | (none, st) => (acc.1, st)) ([], s4)
              let s6 := setMembersS s5 sid ms
              (some sid, false, addExternalS s6 sid)
        | _ => (none, false, s)

/-- `VisitFieldDecl` (ImportDecl.cpp:813). -/
def visitFieldF (ast : CAst) (ext : Ext) (p : Interp) (s : IState)
    (d : CDecl) (f : FieldData) : Option Nat × Bool × IState :=
  let name := extName ext f.fname
  if name = "" then (none, false, s)
  else
    match p.impTy s f.fty with
    | (none, s1) => (none, false, s1)
    | (some ty, s1) =>
      match impDeclCtxOfF ast ext p s1 d with
      | (none, s2) => (none, false, s2)
      | (some dc, s2) =>
        let (vid, s3) := s2.alloc
          { name := name, ctx := dc, kind := .varK { ty := ty } }
        (some vid, false, s3)

/-- `VisitObjCMethodDecl(decl, dc)` (ImportDecl.cpp:913). -/
def visitMethodDCF (ast : CAst) (ext : Ext) (p : Interp) (s : IState)
    (d : CDecl) (m : MethodData) (dc : TCtx) :
    Option Nat × Bool × IState :=
  let name := extName ext m.sel.first
  if name = "" then (none, false, s)
  else
    match declaredTypeOfContext s dc with
    | none => (none, false, s)
    | some _ =>
      match getSelfTypeForContext s dc with
      | none => (none, false, s)
      | some selfTy0 =>
        let selfTy := if m.instanceM then selfTy0 else .metaT selfTy0
        let selfPat := mkSelfPat selfTy
        match p.impFuncTy s m.resTy m.params m.variadic [selfPat]
            [selfPat] with
        | (none, s1) => (none, false, s1)
        | (some (fnTy, aPats, bPats), s1) =>
          match fnTy.fnResult with
          | none => (none, false, s1)
          | some _resultTy =>
            let mty : TType := .fnT selfTy fnTy
            let (fid, s2) := s1.alloc
              { name := name, ctx := dc,
                kind := .funcK { ty := mty, argPats := aPats,
                                 bodyPats := bPats,
                                 isStat := !m.instanceM } }
            let s3 :=
              match selfTy with
              | .namedT ctid =>
                match s2.arena ctid with
                | some cdta =>
                  match cdta.kind with
                  | .classK (some (.namedT sutid)) _ _ _ =>
                    match s2.arena sutid with
                    | some sud =>
                      match sud.clangNode with
                      | some sc =>
                        match ast.decls sc with
                        | some scd =>
                          match scd.kind with
                          | .ifaceCK _ =>
                            match lookupMethodChain ast (ast.bound + 1) sc
                                m.sel m.instanceM with
                            | some smId =>
                              let inProto : Bool :=
                                match ast.decls smId with
                                | some smd =>
                                  match smd.pctx with
                                  | .inDecl pc =>
                                    match ast.decls pc with
                                    | some pcd =>
                                      match pcd.kind with
                                      | .protoCK _ => true
                                      | _ => false
                                    | none => false
                                  | .tu => false
                                | none => false
                              let (sm, s2a) :=
                                if inProto then
                                  p.impMirr s2 smId (.inDecl sutid)
                                else p.impDecl s2 smId
                              match sm with
                              | some smTid =>
                                match s2a.arena smTid with
                                | some smd2 =>
                                  match smd2.kind with
                                  | .funcK _ => setOverriddenS s2a fid smTid
                                  | _ => s2a
                                | none => s2a
                              | none => s2a
                            | none => s2
                          | _ => s2
                        | none => s2
                      | none => s2
                    | none => s2
                  | _ => s2
                | none => s2
              | _ => s2
            let s4 := setClangNodeS s3 fid d.canon
            let s5 : IState :=
              match s4.cache d.canon with
              | some (some _) => s4
              | _ => { s4 with cache := upd s4.cache d.canon (some fid) }
            if methodFamily m = .initF && isReallyInitMethod m then
              (some fid, false, s5)
            else
              let (_, s6) := p.impSpecial s5 fid dc
              (some fid, false, s6)

/-- `importSpecialMethod` (ImportDecl.cpp:1052). -/
def impSpecialF (ast : CAst) (_ext : Ext) (p : Interp) (s : IState)
    (tid : Nat) (dc : TCtx) : Option Nat × IState :=
  match s.arena tid with
  | none => (none, s)
  | some td =>
    match td.clangNode with
    | none => (none, s)
    | some cid =>
      match ast.decls cid with
      | none => (none, s)
      | some cd =>
        match cd.kind with
        | .methodCK m =>
          match methodFamily m with
          | .noneF =>
            if m.instanceM &&
               (m.sel == objectAtIndexedSubscript ||
                m.sel == setObjectAtIndexedSubscript ||
                m.sel == objectForKeyedSubscript ||
                m.sel == setObjectForKeyedSubscript) then
              p.impSub s tid cid dc
            else (none, s)
          | .initF =>
            if isReallyInitMethod m then p.impCtor s tid cid dc
            else (none, s)
          | _ => (none, s)
        | _ => (none, s)

/-- `importConstructor` (ImportDecl.cpp:1103).  The passed target
declaration is only used for its source location in the source file, which
is not modelled. -/
def impCtorF (ast : CAst) (_ext : Ext) (p : Interp) (s : IState)
    (_tid : Nat) (cid : Nat) (dc : TCtx) : Option Nat × IState :=
  match declaredTypeOfContext s dc with
  | none => (none, s)
  | some containerTy =>
    match ast.decls cid with
    | none => (none, s)
    | some cd =>
      match cd.kind with
      | .methodCK m =>
        match methodFamily m with
        | .initF =>
          let inProto : Bool :=
            match cd.pctx with
            | .inDecl pc =>
              match ast.decls pc with
              | some pcd =>
                match pcd.kind with
                | .protoCK _ => true
                | _ => false
              | none => false
            | .tu => false
          let ifaceOpt : Option Nat :=
            if inProto then
              match containerTy with
              | .namedT t =>
                match s.arena t with
                | some td =>
                  match td.kind with
                  | .classK _ _ _ _ =>
                    match td.clangNode with
                    | some ci =>
                      match ast.decls ci with
                      | some cdd =>
                        match cdd.kind with
                        | .ifaceCK _ => some ci
                        | _ => none
                      | none => none
                    | none => none
                  | _ => none
                | none => none
              | _ => none
            else getClassInterfaceOf ast cd
          match ifaceOpt with
          | none => (none, s)
          | some iface =>
            match lookupClassMethod ast iface allocSelector with
            | none => (none, s)
            | some allocM =>
              match p.impDecl s allocM with
              | (none, s1) => (none, s1)
              | (some aid, s1) =>
                match s1.arena aid with
                | none => (none, s1)
                | some ad =>
                  match ad.kind with
                  | .funcK _ =>
                    match getSelfTypeForContext s1 dc with
                    | none => (none, s1)
                    | some selfTy =>
                      let selfMetaTy : TType := .metaT selfTy
                      let selfPat := mkSelfPat selfMetaTy
                      match p.impFuncTy s1 m.resTy m.params m.variadic
                          [selfPat] [selfPat] with
                      | (none, s2) => (none, s2)
                      | (some (fnTy, aPats, _bPats), s2) =>
                        match fnTy.fnInput with
                        | none => (none, s2)
                        | some input =>
                          let ty2 : TType := .fnT input selfTy
                          let allocType : TType := .fnT selfMetaTy ty2
                          let initType : TType := .fnT selfTy ty2
                          match aPats.getLast? with
                          | none => (none, s2)
                          | some argPat =>
                            let body : TExpr :=
                              .downcastE
                                (.callE
                                  (.dotCallE (.declRefE aid)
                                    (.metatypeE selfMetaTy)) .unitE) selfTy
                            let (ctorId, s3) := s2.alloc
                              { name := "init", ctx := dc,
                                clangNode := some cid,
                                kind := .ctorK { allocTy := allocType,
                                                 initTy := initType,
                                                 argPat := argPat,
                                                 body := some body } }
                            (some ctorId, addExternalS s3 ctorId)
                  | _ => (none, s1)
        | _ => (none, s)
      | _ => (none, s)

/-- The shared tail of `importSubscript` (ImportDecl.cpp:1532-1656): memo
check, index/element shape checks, thunk building, subscript creation,
override detection, and memoization. -/
def impSubFinish (ext : Ext) (s : IState) (getterId : Nat)
    (setterId : Option Nat) (dc : TCtx) : Option Nat × IState :=
  match s.subs (some getterId, setterId) with
  | some sub => (some sub, s)
  | none =>
    match s.arena getterId with
    | none => (none, s)
    | some gd =>
      match gd.kind with
      | .funcK gf =>
        match gf.ty with
        | .fnT _ (.fnT _ elemTy) =>
          match gf.argPats.get? 1 with
          | some (.typedP _ _) => (none, s)
          | some (.namedP _ _) => (none, s)
          | none => (none, s)
          | some (.tupleP gfs _) =>
            if gfs.length ≠ 1 then (none, s)
            else
              match gfs.get? 0 with
              | none => (none, s)
              | some gIdx =>
                let setterSide : Option (Option Pat) :=
                  match setterId with
                  | none => some none
                  | some st =>
                    match s.arena st with
                    | none => none
                    | some sd =>
                      match sd.kind with
                      | .funcK sf =>
                        match sf.bodyPats.get? 1 with
                        | some (.tupleP sfs _) =>
                          if sfs.length ≠ 2 then none
                          else
                            match sfs.get? 0, sfs.get? 1 with
                            | some vPat, some sIdx =>
                              if elemTy ≠ vPat.pty then none
                              else if sIdx.pty ≠ gIdx.pty then none
                              else some (some sIdx)
                            | _, _ => none
                        | _ => none
                      | _ => none
                match setterSide with
                | none => (none, s)
                | some sIdxOpt =>
                  match buildGetterThunk s getterId dc (some gIdx) with
                  | (none, s1) => (none, s1)
                  | (some gThunk, s1) =>
                    let (sThunkOpt, s2) :=
                      match setterId, sIdxOpt with
                      | some st, some sIdx =>
                        match buildSetterThunk s1 st dc (some sIdx) with
                        | (some t, st') => (some t, st')
                        | (none, st') => (none, st')
                      | _, _ => (none, s1)
                    match s2.arena gThunk with
                    | none => (none, s2)
                    | some gtd =>
                      match gtd.kind with
                      | .funcK gtf =>
                        match gtf.argPats.get? 1 with
                        | none => (none, s2)
                        | some argPattern =>
                          let (subId, s3) := s2.alloc
                            { name := "__subscript", ctx := dc,
                              kind := .subK
                                { indices := argPattern, elemTy := elemTy,
                                  ty := .fnT argPattern.pty elemTy,
                                  getterF := gThunk,
                                  setterF := sThunkOpt } }
                          let s4 := makeGetterS s3 gThunk subId
                          let s5 :=
                            match sThunkOpt with
                            | some st => makeSetterS s4 st subId
                            | none => s4
                          let lkp : List Nat :=
                            match declaredTypeOfContext s5 dc with
                            | some ct => ext.lookupQualified ct "__subscript"
                            | none => []
                          let parentOpt : Option (Nat × SubData) :=
                            lkp.findSome? (fun r =>
                              match s5.arena r with
                              | some rd =>
                                match rd.kind with
                                | .subK ps =>
                                  if ps.indices.pty = argPattern.pty then
                                    some (r, ps)
                                  else none
                                | _ => none
                              | none => none)
                          let s6 :=
                            match parentOpt with
                            | none => s5
                            | some (r, ps) =>
                              let sa := setOverriddenS s5 subId r
                              let sb := setOverriddenS sa gThunk ps.getterF
                              match ps.setterF, sThunkOpt with
                              | some pst, some st => setOverriddenS sb st pst
                              | _, _ => sb
                          let newSubs :=
                            upd (upd s6.subs (some getterId, setterId) subId)
                              (some gThunk, none) subId
                          let s7 : IState := { s6 with subs := newSubs }
                          (some subId, s7)
                      | _ => (none, s2)
        | _ => (none, s)
      | _ => (none, s)

/-- `importSubscript` (ImportDecl.cpp:1460): the four accessor-selector
branches, counterpart lookup and import, then the shared tail. -/
def impSubF (ast : CAst) (ext : Ext) (p : Interp) (s : IState)
    (tid : Nat) (cid : Nat) (dc : TCtx) : Option Nat × IState :=
  match ast.decls cid with
  | none => (none, s)
  | some cd =>
    match cd.kind with
    | .methodCK m =>
      match getClassInterfaceOf ast cd with
      | none => (none, s)
      | some iface =>
        if m.sel == objectAtIndexedSubscript then
          let (setterOpt, s1) :=
            match lookupInstanceMethod ast iface
                setObjectAtIndexedSubscript with
            | some om =>
              match p.impDecl s om with
              | (some rid, st) =>
                match st.arena rid with
                | some rd =>
                  match rd.kind with
                  | .funcK f => (if f.isStat then none else some rid, st)
                  | _ => (none, st)
                | none => (none, st)
              | (none, st) => (none, st)
            | none => (none, s)
          impSubFinish ext s1 tid setterOpt dc
        else if m.sel == setObjectAtIndexedSubscript then
          let r :=
            match lookupInstanceMethod ast iface objectAtIndexedSubscript with
            | some om =>
              match p.impDecl s om with
              | (some rid, st) =>
                match st.arena rid with
                | some rd =>
                  match rd.kind with
                  | .funcK f =>
                    if f.isStat then (none, true, st)
                    else (some rid, false, st)
                  | _ => (none, false, st)
                | none => (none, false, st)
              | (none, st) => (none, false, st)
            | none => (none, false, s)
          match r with
          | (_, true, st) => (none, st)
          | (none, false, st) => (none, st)
          | (some gid, false, st) => impSubFinish ext st gid (some tid) dc
        else if m.sel == objectForKeyedSubscript then
          let (setterOpt, s1) :=
            match lookupInstanceMethod ast iface
                setObjectForKeyedSubscript with
            | some om =>
              match p.impDecl s om with
              | (some rid, st) =>
                match st.arena rid with
                | some rd =>
                  match rd.kind with
                  | .funcK f => (if f.isStat then none else some rid, st)
                  | _ => (none, st)
                | none => (none, st)
              | (none, st) => (none, st)
            | none => (none, s)
          impSubFinish ext s1 tid setterOpt dc
        else if m.sel == setObjectForKeyedSubscript then
          let r :=
            match lookupInstanceMethod ast iface objectForKeyedSubscript with
            | some om =>
              match p.impDecl s om with
              | (some rid, st) =>
                match st.arena rid with
                | some rd =>
                  match rd.kind with
                  | .funcK f =>
                    if f.isStat then (none, true, st)
                    else (some rid, false, st)
                  | _ => (none, false, st)
                | none => (none, false, st)
              | (none, st) => (none, false, st)
            | none => (none, false, s)
          match r with
          | (_, true, st) => (none, st)
          | (none, false, st) => (none, st)
          | (some gid, false, st) => impSubFinish ext st gid (some tid) dc
        else (none, s)
    | _ => (none, s)

/-- `importObjCMembers` (ImportDecl.cpp:1696): import each named member,
skip methods whose associated property imports, add special declarations
(subscripts once, constructors replacing their init methods).
One member of its loop: -/
def impMembersStep (ast : CAst) (p : Interp) (swiftCtx : TCtx)
    (acc : List Nat × List Nat × IState) (mid : Nat) :
    List Nat × List Nat × IState :=
  let (members, known, st) := acc
  match ast.decls mid with
  | none => acc
  | some nd =>
    match p.impDecl st mid with
    | (none, st1) => (members, known, st1)
    | (some member, st1) =>
      let handleSpecial := fun (st' : IState) =>
        match p.impSpecial st' member swiftCtx with
        | (some sp, st2) =>
          let isNew := !(known.contains sp)
          let members1 := if isNew then members ++ [sp] else members
          let known1 := if isNew then known ++ [sp] else known
          let isCtor : Bool :=
            match st2.arena sp with
            | some sd =>
              match sd.kind with
              | .ctorK _ => true
              | _ => false
            | none => false
          if isCtor then (members1, known1, st2)
          else (members1 ++ [member], known1, st2)
        | (none, st2) => (members ++ [member], known, st2)
      match nd.kind with
      | .methodCK m =>
        match m.propertyOf with
        | some pid =>
          match p.impDecl st1 pid with
          | (some _, st2) => (members, known, st2)
          | (none, st2) => handleSpecial st2
        | none => handleSpecial st1
      | _ => (members ++ [member], known, st1)

/-- The member fold of `importObjCMembers`. -/
def impMembersF (ast : CAst) (_ext : Ext) (p : Interp) (s : IState)
    (containerId : Nat) (swiftCtx : TCtx) : List Nat × IState :=
  match ast.decls containerId with
  | none => ([], s)
  | some d =>
    let mems : List Nat :=
      match d.kind with
      | .ifaceCK i => i.mems
      | .catCK c => c.mems
      | .protoCK pr => pr.mems
      | _ => []
    let (members, _, st) :=
      mems.foldl (impMembersStep ast p swiftCtx) ([], [], s)
    (members, st)

/-- `importObjCProtocols` (ImportDecl.cpp:1672); the implicit protocols of
the nominal are empty in this model. -/
def impProtosF (_ast : CAst) (_ext : Ext) (p : Interp) (s : IState)
    (clangProtos : List Nat) : List Nat × IState :=
  clangProtos.foldl
    (fun (acc : List Nat × IState) cp =>
      match p.impDecl acc.2 cp with
      | (some t, st) =>
        match st.arena t with
        | some td =>
          match td.kind with
          | .protocolK _ _ =>
            if acc.1.contains t then (acc.1, st) else (acc.1 ++ [t], st)
          | _ => (acc.1, st)
        | none => (acc.1, st)
      | (none, st) => (acc.1, st)) ([], s)

/-- One container of the inherited-constructor scan
(`inheritConstructors` lambda, ImportDecl.cpp:1802). -/
def inheritOneContainer (ast : CAst) (p : Interp) (objcClassId : Nat)
    (dc : TCtx) (acc : List Nat × List Selector × IState)
    (containerId : Nat) : List Nat × List Selector × IState :=
  let memsOf : List Nat :=
    match ast.decls containerId with
    | some d =>
      match d.kind with
      | .ifaceCK i => i.mems
      | .catCK c => c.mems
      | .protoCK pr => pr.mems
      | _ => []
    | none => []
  memsOf.foldl
    (fun (a : List Nat × List Selector × IState) mid =>
      let (members, knownSels, st) := a
      match ast.decls mid with
      | some md =>
        match md.kind with
        | .methodCK m =>
          if methodFamily m = .initF && isReallyInitMethod m &&
             !(hasMethodShallow ast m.sel m.instanceM objcClassId) &&
             !(knownSels.contains m.sel) then
            let knownSels1 := knownSels ++ [m.sel]
            match p.impDecl st mid with
            | (some impId, st1) =>
              match p.impCtor st1 impId mid dc with
              | (some sp, st2) => (members ++ [sp], knownSels1, st2)
              | (none, st2) => (members, knownSels1, st2)
            | (none, st1) => (members, knownSels1, st1)
          else a
        | _ => a
      | none => a) acc

/-- The superclass walk of `importInheritedConstructors`
(ImportDecl.cpp:1821), bounded by fuel. -/
def inheritedChainF (ast : CAst) (p : Interp) (objcClassId : Nat)
    (dc : TCtx) :
    Nat → Option Nat → List Nat × List Selector × IState →
      List Nat × List Selector × IState
  | 0, _, acc => acc
  | _ + 1, none, acc => acc
  | n + 1, some cur, acc =>
    match ast.decls cur with
    | some d =>
      match d.kind with
      | .ifaceCK i =>
        let acc1 := inheritOneContainer ast p objcClassId dc acc cur
        let acc2 :=
          i.cats.foldl (inheritOneContainer ast p objcClassId dc) acc1
        inheritedChainF ast p objcClassId dc n i.superC acc2
      | _ => acc
    | none => acc

/-- `importInheritedConstructors` (ImportDecl.cpp:1796). -/
def impInheritedF (ast : CAst) (_ext : Ext) (p : Interp) (s : IState)
    (objcClassId : Nat) (dc : TCtx) (members : List Nat) :
    List Nat × IState :=
  let (ms, _, st) :=
    inheritedChainF ast p objcClassId dc (ast.bound + 1)
      (some objcClassId) (members, [], s)
  (ms, st)

/-- `importMirroredProtocolMembers` (ImportDecl.cpp:1746). -/
def impMirrMembersF (ast : CAst) (_ext : Ext) (p : Interp) (s : IState)
    (containerId : Nat) (dc : TCtx) (protoTids : List Nat)
    (members : List Nat) : List Nat × IState :=
  protoTids.foldl
    (fun (acc : List Nat × IState) ptid =>
      match acc.2.arena ptid with
      | some pd =>
        match pd.kind with
        | .protocolK _ pmems =>
          pmems.foldl
            (fun (a : List Nat × IState) mid =>
              match a.2.arena mid with
              | some md =>
                match md.kind with
                | .funcK _ =>
                  match md.clangNode with
                  | some cid =>
                    match ast.decls cid with
                    | some cmd =>
                      match cmd.kind with
                      | .methodCK m =>
                        if (getMethodDirect ast containerId m.sel
                              m.instanceM).isNone then
                          match p.impMirr a.2 cid dc with
                          | (some imp, st1) =>
                            match p.impSpecial st1 imp dc with
                            | (some sp, st2) => (a.1 ++ [imp, sp], st2)
                            | (none, st2) => (a.1 ++ [imp], st2)
                          | (none, st1) => (a.1, st1)
                        else a
                      | _ => a
                    | none => a
                  | none => a
                | _ => a
              | none => a) acc
        | _ => acc
      | none => acc) (members, s)

/-- The tail of `VisitObjCInterfaceDecl` after the superclass import
(ImportDecl.cpp:1993-2024). -/
def visitIfaceRestF (_ast : CAst) (_ext : Ext) (p : Interp) (s : IState)
    (jId : Nat) (cidT : Nat) (ii : InterfaceData) :
    Option Nat × Bool × IState :=
  let (protos, s1) := p.impProtos s ii.protos
  let s2 := setProtosS s1 cidT protos
  let (members, s3) := p.impMembers s2 jId (.inDecl cidT)
  let (members2, s4) := p.impInherited s3 jId (.inDecl cidT) members
  let (members3, s5) :=
    p.impMirrMembers s4 jId (.inDecl cidT) protos members2
  let s6 := setMembersS s5 cidT members3
  (some cidT, false, addExternalS s6 cidT)

/-- `VisitObjCInterfaceDecl` (ImportDecl.cpp:1956). -/
def visitIfaceF (ast : CAst) (ext : Ext) (p : Interp) (s : IState)
    (d : CDecl) : Option Nat × Bool × IState :=
  match d.defn with
  | none => (none, true, s)
  | some j =>
    match ast.decls j with
    | none => (none, false, s)
    | some dd =>
      match dd.kind with
      | .ifaceCK ii =>
        let name := extName ext ii.iname
        if name = "" then (none, false, s)
        else
          match impDeclCtxOfF ast ext p s dd with
          | (none, s1) => (none, false, s1)
          | (some dc, s1) =>
            let (cidT, s2) := s1.alloc
              { name := name, ctx := dc, kind := .classK none [] [] [] }
            let s3 : IState :=
              { s2 with cache := upd s2.cache dd.canon (some cidT) }
            let s4 := setClangNodeS s3 cidT dd.canon
            match ii.superC with
            | some sc =>
              match p.impDecl s4 sc with
              | (none, s5) => (none, false, s5)
              | (some su, s5) =>
                match s5.arena su with
                | none => (none, false, s5)
                | some sud =>
                  match sud.kind with
                  | .classK _ _ _ _ =>
                    let s6 := setSuperS s5 cidT (.namedT su)
                    visitIfaceRestF ast ext p s6 j cidT ii
                  | _ => (none, false, s5)
            | none => visitIfaceRestF ast ext p s4 j cidT ii
      | _ => (none, false, s)

/-- `VisitObjCCategoryDecl` (ImportDecl.cpp:1833). -/
def visitCatF (ast : CAst) (ext : Ext) (p : Interp) (s : IState)
    (did : Nat) (d : CDecl) (c : CatData) : Option Nat × Bool × IState :=
  match p.impDecl s c.classI with
  | (none, s1) => (none, false, s1)
  | (some clsT, s1) =>
    match s1.arena clsT with
    | none => (none, false, s1)
    | some cld =>
      match cld.kind with
      | .classK _ _ _ _ =>
        match impDeclCtxOfF ast ext p s1 d with
        | (none, s2) => (none, false, s2)
        | (some dc, s2) =>
          let (extId, s3) := s2.alloc
            { name := "", ctx := dc, kind := .extK clsT [] [] }
          let s4 := addExtensionS s3 clsT extId
          let s5 : IState :=
            { s4 with cache := upd s4.cache d.canon (some extId) }
          let s6 := setClangNodeS s5 extId d.canon
          let (protos, s7) := p.impProtos s6 c.protos
          let s8 := setProtosS s7 extId protos
          let (members, s9) := p.impMembers s8 did (.inDecl extId)
          let (members2, s10) :=
            p.impMirrMembers s9 did (.inDecl extId) protos members
          let s11 := setMembersS s10 extId members2
          (some extId, false, s11)
      | _ => (none, false, s1)

/-- `VisitObjCProtocolDecl` (ImportDecl.cpp:1880). -/
def visitProtoF (ast : CAst) (ext : Ext) (p : Interp) (s : IState)
    (d : CDecl) : Option Nat × Bool × IState :=
  match d.defn with
  | none => (none, true, s)
  | some j =>
    match ast.decls j with
    | none => (none, false, s)
    | some dd =>
      match dd.kind with
      | .protoCK pr =>
        let name := extNameProto ext pr.pname
        if name = "" then (none, false, s)
        else
          match impDeclCtxOfF ast ext p s dd with
          | (none, s1) => (none, false, s1)
          | (some dc, s1) =>
            let (pid, s2) := s1.alloc
              { name := name, ctx := dc, kind := .protocolK [] [] }
            let s3 : IState :=
              { s2 with cache := upd s2.cache dd.canon (some pid) }
            let s4 := setClangNodeS s3 pid dd.canon
            let (protos, s5) := p.impProtos s4 pr.protos
            let s6 := setProtosS s5 pid protos
            let (selfId, s7) := s6.alloc
              { name := "Self", ctx := .inDecl pid, kind := .assocTypeK }
            let s8 := setMembersS s7 pid [selfId]
            let (members, s9) := p.impMembers s8 j (.inDecl pid)
            let s10 := setMembersS s9 pid ([selfId] ++ members)
            (some pid, false, addExternalS s10 pid)
      | _ => (none, false, s)

/-- `VisitObjCPropertyDecl` (ImportDecl.cpp:2033). -/
def visitPropF (ast : CAst) (ext : Ext) (p : Interp) (s : IState)
    (d : CDecl) (pd : PropData) : Option Nat × Bool × IState :=
  let inProto : Bool :=
    match d.pctx with
    | .inDecl pc =>
      match ast.decls pc with
      | some pcd =>
        match pcd.kind with
        | .protoCK _ => true
        | _ => false
      | none => false
    | .tu => false
  if inProto then (none, false, s)
  else
    match impDeclCtxOfF ast ext p s d with
    | (none, s1) => (none, false, s1)
    | (some dc, s1) =>
      let name := extName ext pd.pname
      if name = "" then (none, false, s1)
      else
        let lkp : List Nat :=
          match declaredTypeOfContext s1 dc with
          | some ct => ext.lookupQualified ct name
          | none => []
        let scan : Option (Option Nat) :=
          lkp.foldl
            (fun (acc : Option (Option Nat)) r =>
              match acc with
              | none => none
              | some ov =>
                match s1.arena r with
                | some rd =>
                  match rd.kind with
                  | .funcK _ => none
                  | .varK _ => some (some r)
                  | _ => some ov
                | none => some ov) (some none)
        match scan with
        | none => (none, false, s1)
        | some overridden =>
          match p.impTy s1 pd.ty with
          | (none, s2) => (none, false, s2)
          | (some ty, s2) =>
            match p.impDecl s2 pd.getterM with
            | (none, s3) => (none, false, s3)
            | (some g, s3) =>
              match s3.arena g with
              | none => (none, false, s3)
              | some gdd =>
                match gdd.kind with
                | .funcK _ =>
                  let setterRes : Option (Option Nat) × IState :=
                    match pd.setterM with
                    | none => (some none, s3)
                    | some sm =>
                      match p.impDecl s3 sm with
                      | (some r, st) =>
                        match st.arena r with
                        | some rdd =>
                          match rdd.kind with
                          | .funcK _ => (some (some r), st)
                          | _ => (none, st)
                        | none => (none, st)
                      | (none, st) => (none, st)
                  match setterRes with
                  | (none, s4) => (none, false, s4)
                  | (some setterOpt, s4) =>
                    let (varId, s5) := s4.alloc
                      { name := name, ctx := dc, kind := .varK { ty := ty } }
                    match buildGetterThunk s5 g dc none with
                    | (none, s6) => (none, false, s6)
                    | (some gth, s6) =>
                      let s7 := makeGetterS s6 gth varId
                      let (sthOpt, s8) :=
                        match setterOpt with
                        | some st0 =>
                          match buildSetterThunk s7 st0 dc none with
                          | (some t, st') => (some t, st')
                          | (none, st') => (none, st')
                        | none => (none, s7)
                      let s9 :=
                        match sthOpt with
                        | some st0 => makeSetterS s8 st0 varId
                        | none => s8
                      let s10 := setAccessorsS s9 varId gth sthOpt
                      let s11 :=
                        match overridden with
                        | some o => setOverriddenS s10 varId o
                        | none => s10
                      (some varId, false, s11)
                | _ => (none, false, s3)

/-- `SwiftDeclConverter::Visit`: kind dispatch.  Foreign kinds not listed
here are represented by `otherCK`, whose visitors in the source all return
null unconditionally. -/
def visitF (ast : CAst) (ext : Ext) (p : Interp) (s : IState) (did : Nat) :
    Option Nat × Bool × IState :=
  match ast.decls did with
  | none => (none, false, s)
  | some d =>
    match d.kind with
    | .enumCK _ => visitEnumF ast ext p s d
    | .enumConstCK c => visitEnumConstF ast ext p s d c
    | .recordCK r => visitRecordF ast ext p s d r
    | .fieldCK f => visitFieldF ast ext p s d f
    | .ifaceCK _ => visitIfaceF ast ext p s d
    | .catCK c => visitCatF ast ext p s did d c
    | .protoCK _ => visitProtoF ast ext p s d
    | .methodCK m =>
      match impDeclCtxOfF ast ext p s d with
      | (none, s') => (none, false, s')
      | (some dc, s') => visitMethodDCF ast ext p s' d m dc
    | .propCK pd => visitPropF ast ext p s d pd
    | .namespaceCK => (none, false, s)
    | .otherCK => (none, false, s)

/-- `VisitObjCMethodDecl(decl, dc)` looked up by declaration id (the entry
point `importMirroredDecl` uses). -/
def visitMethodDCWrapF (ast : CAst) (ext : Ext) (p : Interp) (s : IState)
    (did : Nat) (dc : TCtx) : Option Nat × Bool × IState :=
  match ast.decls did with
  | none => (none, false, s)
  | some d =>
    match d.kind with
    | .methodCK m => visitMethodDCF ast ext p s d m dc
    | _ => (none, false, s)

/-- `ClangImporter::Implementation::importDecl` (ImportDecl.cpp:2196):
cache check on the canonical declaration, visit, back-link stamping, and
cache population (skipped when a forward declaration was seen and nothing
was produced). -/
def impDeclF (ast : CAst) (_ext : Ext) (p : Interp) (s : IState)
    (did : Nat) : Option Nat × IState :=
  match ast.decls did with
  | none => (none, s)
  | some d =>
    match s.cache d.canon with
    | some r => (r, s)
    | none =>
      match p.visitD s did with
      | (some t, _, s1) =>
        let s2 := setClangNodeS s1 t d.canon
        (some t, { s2 with cache := upd s2.cache d.canon (some t) })
      | (none, fwd, s1) =>
        if fwd then (none, s1)
        else (none, { s1 with cache := upd s1.cache d.canon none })

/-- `importMirroredDecl` (ImportDecl.cpp:2219). -/
def impMirrF (ast : CAst) (_ext : Ext) (p : Interp) (s : IState)
    (did : Nat) (dc : TCtx) : Option Nat × IState :=
  match ast.decls did with
  | none => (none, s)
  | some d =>
    match s.mirrored (d.canon, dc) with
    | some r => (r, s)
    | none =>
      match p.visitMethodDC s did dc with
      | (res, fwd, s1) =>
        let s2 :=
          match res with
          | some t => setClangNodeS s1 t d.canon
          | none => s1
        if res.isSome || !fwd then
          (res, { s2 with mirrored := upd s2.mirrored (d.canon, dc) res })
        else (res, s2)

/-- One fuel level of the importer: every operation, with nested calls
running at the previous level. -/
def mkInterp (ast : CAst) (ext : Ext) (p : Interp) : Interp where
  impDecl := impDeclF ast ext p
  impMirr := impMirrF ast ext p
  impDeclCtx := impDeclCtxF ast ext p
  impTy := impTyF ast ext p
  visitD := visitF ast ext p
  visitMethodDC := visitMethodDCWrapF ast ext p
  impFuncTy := impFuncTyF ast ext p
  impSpecial := impSpecialF ast ext p
  impCtor := impCtorF ast ext p
  impSub := impSubF ast ext p
  impMembers := impMembersF ast ext p
  impProtos := impProtosF ast ext p
  impInherited := impInheritedF ast ext p
  impMirrMembers := impMirrMembersF ast ext p

/-- The fueled importer. -/
def interp (ast : CAst) (ext : Ext) : Nat → Interp
  | 0 => failInterp
  | n + 1 => mkInterp ast ext (interp ast ext n)

/-- Top-level import operation, `Impl.importDecl`, at a fuel level. -/
def importDecl (ast : CAst) (ext : Ext) (fuel : Nat) (s : IState)
    (did : Nat) : Option Nat × IState :=
  (interp ast ext fuel).impDecl s did

/-! ## C2: forward declarations and permanent declines -/

/-! ## C6: no write-only subscripts -/

/-! ## C5: subscript synthesis determinism -/

/-- The `Container` interface of the subscript end-to-end scenario: a
get-by-index and a matching set-by-index instance method. -/
def c5Iface : CDecl :=
  { canon := 1, pctx := .tu, defn := some 1,
    kind := .ifaceCK { iname := some "Container", superC := none,
                       protos := [], mems := [2, 3], cats := [] } }

/-- `- (E)objectAtIndexedSubscript:(I)idx` (index type `absC 10`, element
type `absC 20`). -/
def c5Get : CDecl :=
  { canon := 2, pctx := .inDecl 1,
    kind := .methodCK { sel := objectAtIndexedSubscript, instanceM := true,
                        params := [⟨"idx", .absC 10⟩], resTy := .absC 20,
                        variadic := false } }

/-- `- (void)setObject:(E)obj atIndexedSubscript:(I)idx`. -/
def c5Set : CDecl :=
  { canon := 3, pctx := .inDecl 1,
    kind := .methodCK { sel := setObjectAtIndexedSubscript,
                        instanceM := true,
                        params := [⟨"obj", .absC 20⟩, ⟨"idx", .absC 10⟩],
                        resTy := .voidC, variadic := false } }

/-- The AST of the subscript scenario. -/
def c5Ast : CAst :=
  { decls := fun i =>
      if i = 1 then some c5Iface
      else if i = 2 then some c5Get
      else if i = 3 then some c5Set
      else none,
    bound := 5 }

/-- Identity name translation, no qualified-lookup results. -/
def c5Ext : Ext :=
  { importName := id, minusFound := true, lookupQualified := fun _ _ => [] }

/-- Final state after importing the getter method then the setter method. -/
def c5MN : IState :=
  (importDecl c5Ast c5Ext 20 (importDecl c5Ast c5Ext 20 initState 2).2 3).2

/-- Final state after importing the setter method then the getter method. -/
def c5NM : IState :=
  (importDecl c5Ast c5Ext 20 (importDecl c5Ast c5Ext 20 initState 3).2 2).2

/-- The subscript members of a target container. -/
def subMembersOf (s : IState) (cls : Nat) : List Nat :=
  match s.arena cls with
  | some d =>
    d.kind.membersOf.filter (fun m =>
      match s.arena m with
      | some md =>
        match md.kind with
        | .subK _ => true
        | _ => false
      | none => false)
  | none => []

/-! ## C8: option-set enum end-to-end -/

/-- The foreign `enum Color { Red = 0, Green = 1, Blue = 2 }` of the
end-to-end scenario. -/
def c8Enum : CDecl :=
  { canon := 0, pctx := .tu, defn := some 0,
    kind := .enumCK { ename := some "Color", typedefName := none,
                      intTy := .intC, enumerators := [1, 2, 3] } }

/-- `Red = 0`. -/
def c8Red : CDecl :=
  { canon := 1, pctx := .inDecl 0,
    kind := .enumConstCK { cname := some "Red", val := 0 } }

/-- `Green = 1`. -/
def c8Green : CDecl :=
  { canon := 2, pctx := .inDecl 0,
    kind := .enumConstCK { cname := some "Green", val := 1 } }

/-- `Blue = 2`. -/
def c8Blue : CDecl :=
  { canon := 3, pctx := .inDecl 0,
    kind := .enumConstCK { cname := some "Blue", val := 2 } }

/-- The AST of the `Color` scenario. -/
def c8Ast : CAst :=
  { decls := fun i =>
      if i = 0 then some c8Enum
      else if i = 1 then some c8Red
      else if i = 2 then some c8Green
      else if i = 3 then some c8Blue
      else none,
    bound := 5 }

/-- Identity name translation. -/
def c8Ext : Ext :=
  { importName := id, minusFound := true, lookupQualified := fun _ _ => [] }

/-- Final state after importing the `Color` enum declaration. -/
def c8S : IState := (importDecl c8Ast c8Ext 20 initState 0).2

/-! ## C10: enum constants land at the nearest file-scope context -/

/-- Record `R` that lexically contains the nested enums. -/
def c10Rec : CDecl :=
  { canon := 0, pctx := .tu, defn := some 0,
    kind := .recordCK { isUnion := false, isIface := false,
                        isAnonSU := false, rname := some "R",
                        typedefName := none, mems := [] } }

/-- Named `enum E { A = 1 }` nested inside `R` (option-set kind). -/
def c10Enum : CDecl :=
  { canon := 1, pctx := .inDecl 0, defn := some 1,
    kind := .enumCK { ename := some "E", typedefName := none,
                      intTy := .intC, enumerators := [2] } }

/-- Enumerator `A = 1` of the named nested enum. -/
def c10A : CDecl :=
  { canon := 2, pctx := .inDecl 1,
    kind := .enumConstCK { cname := some "A", val := 1 } }

/-- Unnamed `enum { B = 7 }` nested inside `R` (bare-constants kind). -/
def c10Anon : CDecl :=
  { canon := 3, pctx := .inDecl 0, defn := some 3,
    kind := .enumCK { ename := none, typedefName := none,
                      intTy := .intC, enumerators := [4] } }

/-- Enumerator `B = 7` of the unnamed nested enum. -/
def c10B : CDecl :=
  { canon := 4, pctx := .inDecl 3,
    kind := .enumConstCK { cname := some "B", val := 7 } }

/-- The AST of the nested-enum scenario. -/
def c10Ast : CAst :=
  { decls := fun i =>
      if i = 0 then some c10Rec
      else if i = 1 then some c10Enum
      else if i = 2 then some c10A
      else if i = 3 then some c10Anon
      else if i = 4 then some c10B
      else none,
    bound := 6 }

/-- Identity name translation. -/
def c10Ext : Ext :=
  { importName := id, minusFound := true, lookupQualified := fun _ _ => [] }

/-- State after importing enumerator `A` of the named nested enum. -/
def c10S : IState := (importDecl c10Ast c10Ext 20 initState 2).2

/-- State after additionally importing enumerator `B` of the unnamed one. -/
def c10S2 : IState := (importDecl c10Ast c10Ext 20 c10S 4).2

/-! ## C9: member-list filtering of importObjCMembers -/

/-- Interface `Foo` with a property, its getter method, an init method and
an `alloc` class method. -/
def c9Iface : CDecl :=
  { canon := 1, pctx := .tu, defn := some 1,
    kind := .ifaceCK { iname := some "Foo", superC := none, protos := [],
                       mems := [2, 3, 4, 5], cats := [] } }

/-- `- (X)x`, the getter method of the property `x`. -/
def c9Getter : CDecl :=
  { canon := 2, pctx := .inDecl 1,
    kind := .methodCK { sel := ⟨0, [some "x"]⟩, instanceM := true,
                        params := [], resTy := .absC 10, variadic := false,
                        propertyOf := some 4 } }

/-- `- (id)init`. -/
def c9Init : CDecl :=
  { canon := 3, pctx := .inDecl 1,
    kind := .methodCK { sel := ⟨0, [some "init"]⟩, instanceM := true,
                        params := [], resTy := .absC 20,
                        variadic := false } }

/-- `@property X x`. -/
def c9Prop : CDecl :=
  { canon := 4, pctx := .inDecl 1,
    kind := .propCK { pname := some "x", ty := .absC 10, getterM := 2,
                      setterM := none } }

/-- `+ (id)alloc`. -/
def c9Alloc : CDecl :=
  { canon := 5, pctx := .inDecl 1,
    kind := .methodCK { sel := allocSelector, instanceM := false,
                        params := [], resTy := .absC 30,
                        variadic := false } }

/-- The AST of the member-filtering scenario. -/
def c9Ast : CAst :=
  { decls := fun i =>
      if i = 1 then some c9Iface
      else if i = 2 then some c9Getter
      else if i = 3 then some c9Init
      else if i = 4 then some c9Prop
      else if i = 5 then some c9Alloc
      else none,
    bound := 7 }

/-- Identity name translation, no qualified-lookup results. -/
def c9Ext : Ext :=
  { importName := id, minusFound := true, lookupQualified := fun _ _ => [] }

/-- Final state after importing the `Foo` interface. -/
def c9S : IState := (importDecl c9Ast c9Ext 20 initState 1).2

/-! ## Theorems -/

/-! ## Lemmas: startsWithWord -/

theorem listStarts_iff (w n : List Char) :
    listStarts n w = true ↔ n.take w.length = w := by
  induction w generalizing n with
  | nil => simp [listStarts]
  | cons b bs ih =>
    cases n with
    | nil =>
      refine iff_of_false ?_ ?_
      · intro hc; cases hc
      · intro hc
        rw [List.take_nil] at hc
        cases hc
    | cons a as =>
      show (a == b && listStarts as bs) = true ↔ _
      rw [List.length_cons, List.take_succ_cons, Bool.and_eq_true,
        beq_iff_eq, ih as]
      constructor
      · rintro ⟨rfl, h⟩; rw [h]
      · intro h
        injection h with h1 h2
        exact ⟨h1, h2⟩

theorem startsWithWord_iff (n w : String) :
    startsWithWord n w = true ↔
      (n.data.take w.data.length = w.data ∧
       ∀ c, n.data.get? w.data.length = some c → cIsLower c = false) := by
  unfold startsWithWord
  by_cases h : n.data.length < w.data.length
  · simp only [h, if_true]
    constructor
    · intro hc; cases hc
    · rintro ⟨htake, -⟩
      have h2 := congrArg List.length htake
      simp only [List.length_take] at h2
      omega
  · simp only [h, if_false, Bool.and_eq_true, Bool.or_eq_true, beq_iff_eq,
      Bool.not_eq_true', listStarts_iff]
    push_neg at h
    constructor
    · rintro ⟨hfirst, htake⟩
      refine ⟨htake, ?_⟩
      intro c hc
      rcases hfirst with hlen | hmatch
      · exfalso
        have hle : n.data.length ≤ w.data.length := le_of_eq hlen
        have hnone := List.get?_eq_none.mpr hle
        rw [hnone] at hc; cases hc
      · rw [hc] at hmatch; exact hmatch
    · rintro ⟨htake, hnext⟩
      refine ⟨?_, htake⟩
      cases hc : n.data.get? w.data.length with
      | none =>
        left
        have hle := List.get?_eq_none.mp hc
        omega
      | some c =>
        right
        show cIsLower c = false
        exact hnext c hc

/-- C3 — Initializer recognition.  A method is recognized as "really an
initializer" iff it is an instance method whose selector's first component
is non-null, starts with the characters "init", and whose character
immediately after "init" (if any) is not an ASCII lowercase letter; a first
component "initialize" is not recognized while "initWithCapacity" is. -/
theorem C3_isReallyInitMethod :
    (∀ m : MethodData,
        isReallyInitMethod m = true ↔
          (m.instanceM = true ∧
           ∃ f, m.sel.first = some f ∧
             f.data.take 4 = ['i', 'n', 'i', 't'] ∧
             ∀ c, f.data.get? 4 = some c → cIsLower c = false)) ∧
    isReallyInitMethod
      { sel := ⟨0, [some "initialize"]⟩, instanceM := true, params := [],
        resTy := .voidC, variadic := false } = false ∧
    isReallyInitMethod
      { sel := ⟨1, [some "initWithCapacity"]⟩, instanceM := true,
        params := [], resTy := .voidC, variadic := false } = true := by
  refine ⟨?_, by decide, by decide⟩
  intro m
  unfold isReallyInitMethod
  cases hinst : m.instanceM with
  | false =>
    refine iff_of_false ?_ ?_
    · intro hc
      simp at hc
    · rintro ⟨h, -⟩; cases h
  | true =>
    simp only [Bool.not_true, Bool.false_eq_true, if_false]
    cases hf : m.sel.first with
    | none =>
      refine iff_of_false ?_ ?_
      · intro hc; cases hc
      · rintro ⟨-, f, hsome, -⟩; cases hsome
    | some f =>
      show startsWithWord f "init" = true ↔ _
      rw [startsWithWord_iff]
      have hd : "init".data = ['i', 'n', 'i', 't'] := rfl
      rw [hd]
      have hl : (['i', 'n', 'i', 't'] : List Char).length = 4 := rfl
      rw [hl]
      constructor
      · rintro ⟨ht, hn⟩
        exact ⟨by trivial, f, rfl, ht, hn⟩
      · rintro ⟨-, f', hsome, ht, hn⟩
        cases hsome
        exact ⟨ht, hn⟩

/-! ## Lemmas: getSwiftStdlibType -/

theorem getSwiftStdlibType_factored (table : List MappedTypeEntry)
    (env : StdlibEnv) (name : String) (u : CTypeProps) (e : MappedTypeEntry)
    (hfind : table.find? (fun e => e.cName == name) = some e) :
    getSwiftStdlibType table env name u =
      if stdlibChecksPass env e u then
        getSwiftStdlibType.getSwiftStdlibFinish env e
      else ((none, ""), false) := by
  unfold getSwiftStdlibType stdlibChecksPass
  simp only [hfind]
  have hc1 : (e.languages != MappedLanguages.allL && !env.objC1Enabled)
      = !(e.languages == MappedLanguages.allL || env.objC1Enabled) := by
    rw [Bool.not_or]; rfl
  have hc2 : (e.bitwidth != 0 && e.bitwidth != u.size)
      = !(e.bitwidth == 0 || e.bitwidth == u.size) := by
    rw [Bool.not_or]; rfl
  rw [hc1, hc2]
  cases hb1 : (e.languages == MappedLanguages.allL || env.objC1Enabled) with
  | false => simp
  | true =>
    cases hb2 : (e.bitwidth == 0 || e.bitwidth == u.size) with
    | false => simp
    | true =>
      simp only [Bool.not_true, Bool.false_eq_true, if_false, Bool.true_and]
      cases hk : e.kindM
      case unsignedIntM => cases hu : u.isUnsignedInt <;> simp [hu]
      case signedIntM => cases hu : u.isSignedInt <;> simp [hu]
      case floatIEEEsingleM =>
        cases hf : u.isFloating <;>
          cases hs : (u.floatSem == FloatSem.ieeeSingle) <;>
            simp [hf, hs, bne]
      case floatIEEEdoubleM =>
        cases hf : u.isFloating <;>
          cases hs : (u.floatSem == FloatSem.ieeeDouble) <;>
            simp [hf, hs, bne]
      case floatX87DoubleExtendedM =>
        cases hf : u.isFloating <;>
          cases hs : (u.floatSem == FloatSem.x87DoubleExtended) <;>
            simp [hf, hs, bne]
      case objcBoolM => cases hu : u.isObjCBool <;> simp [hu]
      case objcSelM =>
        cases hp : u.pointeeIsObjCSel with
        | none => simp
        | some b => cases b <;> simp

theorem stdlibFinish_error_iff (env : StdlibEnv) (e : MappedTypeEntry) :
    (getSwiftStdlibType.getSwiftStdlibFinish env e).2 = true ↔
      stdlibResolutionFails env e := by
  unfold getSwiftStdlibType.getSwiftStdlibFinish stdlibResolutionFails
    stdlibModuleOf
  by_cases hm : e.swiftModuleName = "swift"
  · simp only [hm, if_true]
    cases env.swiftModule with
    | none => simp
    | some mo =>
      cases ht : env.namedSwiftType mo e.swiftTypeName with
      | none => cases hcb : e.canBeMissing <;> simp [ht, hcb]
      | some t => simp [ht]
  · simp only [hm, if_false]
    cases env.namedModule e.swiftModuleName with
    | none => simp
    | some mo =>
      cases ht : env.namedSwiftType mo e.swiftTypeName with
      | none => cases hcb : e.canBeMissing <;> simp [ht, hcb]
      | some t => simp [ht]

/-- C4 — Well-known-type resolver error discipline.  When the typedef name
matches a table entry, failure of any verification check (language
applicability, bit width, or the kind-specific shape check) yields "not a
well-known type" with the error flag false, and the error flag is true only
when every check passes and the target module or the non-optional named
type cannot be located. -/
theorem C4_getSwiftStdlibType (table : List MappedTypeEntry)
    (env : StdlibEnv) (name : String) (u : CTypeProps) (e : MappedTypeEntry)
    (hfind : table.find? (fun e => e.cName == name) = some e) :
    (stdlibChecksPass env e u = false →
       getSwiftStdlibType table env name u = ((none, ""), false)) ∧
    ((getSwiftStdlibType table env name u).2 = true →
       stdlibChecksPass env e u = true ∧ stdlibResolutionFails env e) := by
  rw [getSwiftStdlibType_factored table env name u e hfind]
  constructor
  · intro hfail
    simp [hfail]
  · intro herr
    by_cases hpass : stdlibChecksPass env e u
    · rw [if_pos hpass] at herr
      exact ⟨hpass, (stdlibFinish_error_iff env e).mp herr⟩
    · rw [if_neg hpass] at herr
      cases herr

/-- Witness for C4: a concrete table entry whose bit-width check fails is
not substituted and does not raise the error, and a passing entry with a
missing module raises it. -/
theorem C4_getSwiftStdlibType_witness :
    let e : MappedTypeEntry :=
      { cName := "NSInteger", kindM := .signedIntM, bitwidth := 64,
        swiftModuleName := "swift", swiftTypeName := "Int",
        languages := .allL, canBeMissing := false }
    let env : StdlibEnv :=
      { objC1Enabled := true, swiftModule := none,
        namedModule := fun _ => none, namedSwiftType := fun _ _ => none }
    let u32 : CTypeProps :=
      { size := 32, isUnsignedInt := false, isSignedInt := true,
        isFloating := false, floatSem := .otherSem, isObjCBool := false,
        pointeeIsObjCSel := none }
    getSwiftStdlibType [e] env "NSInteger" u32 = ((none, ""), false) := by
  intro e env u32
  exact (C4_getSwiftStdlibType [e] env "NSInteger" u32 e (by decide)).1
    (by decide)

/-- C7 — Enum classification policy.  Classification is a function of the
enum's usable name: an enum with no declared name and no associated typedef
name classifies as bare constants; every enum whose usable name translates
to a non-empty identifier classifies as an option-set struct; the
target-enum classification is never returned. -/
theorem C7_classifyEnum (ext : Ext) (e : EnumData) :
    (e.ename = none → e.typedefName = none →
       classifyEnum ext e = .constants) ∧
    (∀ n, e.ename = some n → ext.importName n ≠ "" →
       classifyEnum ext e = .options) ∧
    (∀ n, e.ename = none → e.typedefName = some n →
       ext.importName n ≠ "" → classifyEnum ext e = .options) ∧
    classifyEnum ext e ≠ .enumEK := by
  refine ⟨?_, ?_, ?_, ?_⟩
  · intro h1 h2
    simp [classifyEnum, h1, h2]
  · intro n h1 h2
    simp [classifyEnum, h1, h2]
  · intro n h1 h2 h3
    simp [classifyEnum, h1, h2, h3]
  · unfold classifyEnum
    cases he : e.ename with
    | some n =>
      by_cases h : ext.importName n = "" <;> simp [h]
    | none =>
      cases ht : e.typedefName with
      | some n =>
        by_cases h : ext.importName n = "" <;> simp [h]
      | none => simp

/-- Witness for C7: an anonymous enum classifies as constants, a named enum
as an option-set struct. -/
theorem C7_classifyEnum_witness :
    let ext : Ext :=
      { importName := id, minusFound := true,
        lookupQualified := fun _ _ => [] }
    classifyEnum ext
      { ename := none, typedefName := none, intTy := .intC,
        enumerators := [] } = .constants ∧
    classifyEnum ext
      { ename := some "Color", typedefName := none, intTy := .intC,
        enumerators := [] } = .options := by
  intro ext
  constructor
  · exact (C7_classifyEnum ext _).1 rfl rfl
  · exact (C7_classifyEnum ext _).2.1 "Color" rfl (by decide)

theorem interp_zero (ast : CAst) (ext : Ext) :
    interp ast ext 0 = failInterp := rfl

theorem interp_succ (ast : CAst) (ext : Ext) (n : Nat) :
    interp ast ext (n + 1) = mkInterp ast ext (interp ast ext n) := rfl

attribute [simp] interp_zero interp_succ

@[simp] theorem mkInterp_impDecl (ast : CAst) (ext : Ext) (p : Interp) :
    (mkInterp ast ext p).impDecl = impDeclF ast ext p := rfl

@[simp] theorem mkInterp_impMirr (ast : CAst) (ext : Ext) (p : Interp) :
    (mkInterp ast ext p).impMirr = impMirrF ast ext p := rfl

@[simp] theorem mkInterp_impDeclCtx (ast : CAst) (ext : Ext) (p : Interp) :
    (mkInterp ast ext p).impDeclCtx = impDeclCtxF ast ext p := rfl

@[simp] theorem mkInterp_impTy (ast : CAst) (ext : Ext) (p : Interp) :
    (mkInterp ast ext p).impTy = impTyF ast ext p := rfl

@[simp] theorem mkInterp_visitD (ast : CAst) (ext : Ext) (p : Interp) :
    (mkInterp ast ext p).visitD = visitF ast ext p := rfl

@[simp] theorem mkInterp_visitMethodDC (ast : CAst) (ext : Ext)
    (p : Interp) :
    (mkInterp ast ext p).visitMethodDC = visitMethodDCWrapF ast ext p := rfl

@[simp] theorem mkInterp_impFuncTy (ast : CAst) (ext : Ext) (p : Interp) :
    (mkInterp ast ext p).impFuncTy = impFuncTyF ast ext p := rfl

@[simp] theorem mkInterp_impSpecial (ast : CAst) (ext : Ext) (p : Interp) :
    (mkInterp ast ext p).impSpecial = impSpecialF ast ext p := rfl

@[simp] theorem mkInterp_impCtor (ast : CAst) (ext : Ext) (p : Interp) :
    (mkInterp ast ext p).impCtor = impCtorF ast ext p := rfl

@[simp] theorem mkInterp_impSub (ast : CAst) (ext : Ext) (p : Interp) :
    (mkInterp ast ext p).impSub = impSubF ast ext p := rfl

@[simp] theorem mkInterp_impMembers (ast : CAst) (ext : Ext) (p : Interp) :
    (mkInterp ast ext p).impMembers = impMembersF ast ext p := rfl

@[simp] theorem mkInterp_impProtos (ast : CAst) (ext : Ext) (p : Interp) :
    (mkInterp ast ext p).impProtos = impProtosF ast ext p := rfl

@[simp] theorem mkInterp_impInherited (ast : CAst) (ext : Ext)
    (p : Interp) :
    (mkInterp ast ext p).impInherited = impInheritedF ast ext p := rfl

@[simp] theorem mkInterp_impMirrMembers (ast : CAst) (ext : Ext)
    (p : Interp) :
    (mkInterp ast ext p).impMirrMembers = impMirrMembersF ast ext p := rfl

@[simp] theorem upd_same {α β : Type} [DecidableEq α] (m : α → Option β)
    (k : α) (v : β) : upd m k v k = some v := by
  simp [upd]

@[simp] theorem upd_ne {α β : Type} [DecidableEq α] (m : α → Option β)
    (k k' : α) (v : β) (h : k' ≠ k) : upd m k v k' = m k' := by
  simp [upd, h]

@[simp] theorem initState_cache (c : Nat) : initState.cache c = none := rfl

@[simp] theorem initState_arena (t : Nat) : initState.arena t = none := rfl

@[simp] theorem initState_subs (k : SKey) : initState.subs k = none := rfl

@[simp] theorem initState_mirrored (k : Nat × TCtx) :
    initState.mirrored k = none := rfl

@[simp] theorem initState_nextId : initState.nextId = 0 := rfl

/-! ## C1: idempotence of the top-level import -/

theorem importDecl_some_cached (ast : CAst) (ext : Ext) (f : Nat)
    (s : IState) (did t : Nat) (s' : IState)
    (h : importDecl ast ext (f + 1) s did = (some t, s')) :
    ∃ d, ast.decls did = some d ∧ s'.cache d.canon = some (some t) := by
  unfold importDecl at h
  rw [interp_succ, mkInterp_impDecl] at h
  unfold impDeclF at h
  cases hd : ast.decls did with
  | none => simp only [hd] at h; simp at h
  | some d =>
    simp only [hd] at h
    refine ⟨d, rfl, ?_⟩
    cases hc : s.cache d.canon with
    | some r =>
      simp only [hc, Prod.mk.injEq] at h
      obtain ⟨h1, h2⟩ := h
      rw [← h2, hc, h1]
    | none =>
      simp only [hc] at h
      cases hv : (interp ast ext f).visitD s did with
      | mk res rest =>
        obtain ⟨fwd, s1⟩ := rest
        simp only [hv] at h
        cases res with
        | some t0 =>
          simp only [Prod.mk.injEq] at h
          obtain ⟨h1, h2⟩ := h
          injection h1 with h1'
          subst h1'
          rw [← h2]
          simp
        | none =>
          cases hfwd : fwd <;> simp [hfwd] at h

theorem importDecl_cache_hit (ast : CAst) (ext : Ext) (f : Nat)
    (s : IState) (did : Nat) (d : CDecl) (r : Option Nat)
    (hd : ast.decls did = some d) (hc : s.cache d.canon = some r) :
    importDecl ast ext (f + 1) s did = (r, s) := by
  unfold importDecl
  rw [interp_succ, mkInterp_impDecl]
  unfold impDeclF
  simp only [hd, hc]

/-- C1 — Idempotence of the top-level import.  When `importDecl` returns a
target declaration for a foreign declaration, a second call on the
resulting state returns the identical target declaration instance (its
cache entry, keyed by the canonical declaration id), without changing the
state — never a fresh duplicate. -/
theorem C1_importDecl_idempotent (ast : CAst) (ext : Ext) (f1 f2 : Nat)
    (s : IState) (did t : Nat) (s' : IState)
    (h : importDecl ast ext (f1 + 1) s did = (some t, s')) :
    importDecl ast ext (f2 + 1) s' did = (some t, s') := by
  obtain ⟨d, hd, hc⟩ := importDecl_some_cached ast ext f1 s did t s' h
  exact importDecl_cache_hit ast ext f2 s' did d (some t) hd hc

/-- Witness for C1: importing the `Color` option-set enum twice returns the
same struct instance both times. -/
theorem C1_importDecl_idempotent_witness :
    let ast : CAst :=
      { decls := fun i =>
          if i = 1 then
            some { canon := 1, pctx := .tu, defn := some 1,
                   kind := .enumCK { ename := some "Color",
                                     typedefName := none, intTy := .intC,
                                     enumerators := [] } }
          else none,
        bound := 2 }
    let ext : Ext :=
      { importName := id, minusFound := true,
        lookupQualified := fun _ _ => [] }
    importDecl ast ext 3
      (importDecl ast ext 3 initState 1).2 1 =
      (some 0, (importDecl ast ext 3 initState 1).2) := by
  intro ast ext
  exact C1_importDecl_idempotent ast ext 2 2 initState 1 0
    (importDecl ast ext 3 initState 1).2 rfl

/-- A visitor outcome of (no result, forward flag) leaves the import with
no cache population and the state untouched by the top level. -/
theorem importDecl_fwd_no_cache (ast : CAst) (ext : Ext) (f : Nat)
    (s : IState) (did : Nat) (d : CDecl)
    (hd : ast.decls did = some d) (hc : s.cache d.canon = none)
    (hv : (interp ast ext (f + 1)).visitD s did = (none, true, s)) :
    importDecl ast ext (f + 2) s did = (none, s) := by
  unfold importDecl
  rw [show f + 2 = (f + 1) + 1 from rfl, interp_succ, mkInterp_impDecl]
  unfold impDeclF
  simp only [hd, hc, hv]
  simp

/-- C2 — Forward-declaration retry and decline permanence.  A record (and
likewise an enum, interface or protocol) with no visible definition imports
to no mapping and leaves the state — in particular the declaration cache —
completely unchanged; a later import of the same canonical identity against
an AST where a definition is available succeeds and populates the cache;
and a permanently-declined kind (a namespace, or any other always-declined
kind) caches the nil result, which every later import returns. -/
theorem C2_forward_and_decline (ast : CAst) (ext : Ext) :
    (∀ f s did d r, ast.decls did = some d → d.kind = .recordCK r →
       r.isUnion = false → r.isIface = false → r.isAnonSU = false →
       d.defn = none → s.cache d.canon = none →
       importDecl ast ext (f + 2) s did = (none, s)) ∧
    (∀ f s did d e, ast.decls did = some d → d.kind = .enumCK e →
       d.defn = none → s.cache d.canon = none →
       importDecl ast ext (f + 2) s did = (none, s)) ∧
    (∀ f s did d i, ast.decls did = some d → d.kind = .ifaceCK i →
       d.defn = none → s.cache d.canon = none →
       importDecl ast ext (f + 2) s did = (none, s)) ∧
    (∀ f s did d pr, ast.decls did = some d → d.kind = .protoCK pr →
       d.defn = none → s.cache d.canon = none →
       importDecl ast ext (f + 2) s did = (none, s)) ∧
    (∀ f s did d r2 j dd rr nm, ast.decls did = some d →
       d.kind = .recordCK r2 → r2.isUnion = false → r2.isIface = false →
       r2.isAnonSU = false → d.defn = some j → ast.decls j = some dd →
       dd.kind = .recordCK rr → rr.rname = some nm →
       ext.importName nm ≠ "" → dd.pctx = .tu → s.cache d.canon = none →
       ∃ t s', importDecl ast ext (f + 2) s did = (some t, s') ∧
         s'.cache d.canon = some (some t)) ∧
    (∀ f g s did d, ast.decls did = some d →
       (d.kind = .namespaceCK ∨ d.kind = .otherCK) →
       s.cache d.canon = none →
       ∃ s', importDecl ast ext (f + 2) s did = (none, s') ∧
         s'.cache d.canon = some none ∧
         importDecl ast ext (g + 1) s' did = (none, s')) := by
  refine ⟨?_, ?_, ?_, ?_, ?_, ?_⟩
  · intro f s did d r hd hk hu hi ha hdef hc
    apply importDecl_fwd_no_cache ast ext f s did d hd hc
    rw [interp_succ, mkInterp_visitD]
    unfold visitF
    simp only [hd, hk]
    unfold visitRecordF
    simp only [hu, hi, ha, hdef]
    rfl
  · intro f s did d e hd hk hdef hc
    apply importDecl_fwd_no_cache ast ext f s did d hd hc
    rw [interp_succ, mkInterp_visitD]
    unfold visitF
    simp only [hd, hk]
    unfold visitEnumF
    simp only [hdef]
  · intro f s did d i hd hk hdef hc
    apply importDecl_fwd_no_cache ast ext f s did d hd hc
    rw [interp_succ, mkInterp_visitD]
    unfold visitF
    simp only [hd, hk]
    unfold visitIfaceF
    simp only [hdef]
  · intro f s did d pr hd hk hdef hc
    apply importDecl_fwd_no_cache ast ext f s did d hd hc
    rw [interp_succ, mkInterp_visitD]
    unfold visitF
    simp only [hd, hk]
    unfold visitProtoF
    simp only [hdef]
  · intro f s did d r2 j dd rr nm hd hk hu hi ha hdef hj hkk hn hne hctx hc
    have hvis : ∃ s1, (interp ast ext (f + 1)).visitD s did =
        (some s.nextId, false, s1) := by
      rw [interp_succ, mkInterp_visitD]
      unfold visitF
      simp only [hd, hk]
      unfold visitRecordF
      simp only [hu, hi, ha, hdef, hj, hkk, hn]
      rw [if_neg hne]
      unfold impDeclCtxOfF
      simp only [hctx]
      exact ⟨_, rfl⟩
    obtain ⟨s1, hvis⟩ := hvis
    have hx : ∃ s', importDecl ast ext (f + 2) s did = (some s.nextId, s') := by
      unfold importDecl
      rw [show f + 2 = (f + 1) + 1 from rfl, interp_succ, mkInterp_impDecl]
      unfold impDeclF
      simp only [hd, hc, hvis]
      exact ⟨_, rfl⟩
    obtain ⟨s', hx⟩ := hx
    have hcc := importDecl_some_cached ast ext (f + 1) s did s.nextId s' hx
    obtain ⟨d', hd', hcc⟩ := hcc
    rw [hd] at hd'
    injection hd' with hd''
    subst hd''
    exact ⟨s.nextId, s', hx, hcc⟩
  · intro f g s did d hd hk hc
    have hvis : (interp ast ext (f + 1)).visitD s did = (none, false, s) := by
      rw [interp_succ, mkInterp_visitD]
      unfold visitF
      rcases hk with hk | hk <;> simp only [hd, hk]
    refine ⟨{ s with cache := upd s.cache d.canon none }, ?_, ?_, ?_⟩
    · unfold importDecl
      rw [show f + 2 = (f + 1) + 1 from rfl, interp_succ, mkInterp_impDecl]
      unfold impDeclF
      simp only [hd, hc, hvis]
      rfl
    · simp
    · apply importDecl_cache_hit ast ext g _ did d none hd
      simp

/-- Witness for C2: a forward-declared record imports to nothing and leaves
the cache unpopulated, the same identity with a definition imports and is
cached, and a namespace caches its nil result. -/
theorem C2_forward_and_decline_witness :
    let fwdRec : CDecl :=
      { canon := 1, pctx := .tu, defn := none,
        kind := .recordCK { isUnion := false, isIface := false,
                            isAnonSU := false, rname := some "S",
                            typedefName := none, mems := [] } }
    let defRec : CDecl :=
      { canon := 1, pctx := .tu, defn := some 1,
        kind := .recordCK { isUnion := false, isIface := false,
                            isAnonSU := false, rname := some "S",
                            typedefName := none, mems := [] } }
    let nsDecl : CDecl :=
      { canon := 2, pctx := .tu, defn := none, kind := .namespaceCK }
    let ast1 : CAst :=
      { decls := fun i =>
          if i = 1 then some fwdRec
          else if i = 2 then some nsDecl else none,
        bound := 3 }
    let ast2 : CAst :=
      { decls := fun i =>
          if i = 1 then some defRec
          else if i = 2 then some nsDecl else none,
        bound := 3 }
    let ext : Ext :=
      { importName := id, minusFound := true,
        lookupQualified := fun _ _ => [] }
    importDecl ast1 ext 4 initState 1 = (none, initState) ∧
    (∃ t s', importDecl ast2 ext 4 initState 1 = (some t, s') ∧
       s'.cache 1 = some (some t)) ∧
    (∃ s', importDecl ast1 ext 4 initState 2 = (none, s') ∧
       s'.cache 2 = some none ∧
       importDecl ast1 ext 4 s' 2 = (none, s')) := by
  intro fwdRec defRec nsDecl ast1 ast2 ext
  refine ⟨?_, ?_, ?_⟩
  · exact (C2_forward_and_decline ast1 ext).1 2 initState 1 fwdRec
      { isUnion := false, isIface := false, isAnonSU := false,
        rname := some "S", typedefName := none, mems := [] }
      rfl rfl rfl rfl rfl rfl rfl
  · exact (C2_forward_and_decline ast2 ext).2.2.2.2.1 2 initState 1 defRec
      _ 1 defRec _ "S" rfl rfl rfl rfl rfl rfl rfl rfl rfl (by decide)
      rfl rfl
  · obtain ⟨s', h1, h2, h3⟩ :=
      (C2_forward_and_decline ast1 ext).2.2.2.2.2 2 3 initState 2 nsDecl
        rfl (Or.inl rfl) rfl
    exact ⟨s', h1, h2, h3⟩

/-- C6 — Subscript rejection.  For a set-by-index (or set-by-key) instance
method whose interface has no get-by-index (or get-by-key) instance method,
or whose getter fails to import, subscript synthesis yields no mapping and
creates no subscript declaration: when the lookup fails the state is
returned untouched, and when only the import fails the state is exactly
the one the failed getter import produced. -/
theorem C6_no_writeonly_subscript (ast : CAst) (ext : Ext) (p : Interp)
    (s : IState) (tid cid : Nat) (dc : TCtx) (d : CDecl) (m : MethodData)
    (iface : Nat) (hd : ast.decls cid = some d)
    (hk : d.kind = .methodCK m)
    (hiface : getClassInterfaceOf ast d = some iface) :
    (m.sel = setObjectAtIndexedSubscript →
       lookupInstanceMethod ast iface objectAtIndexedSubscript = none →
       impSubF ast ext p s tid cid dc = (none, s)) ∧
    (∀ om s1, m.sel = setObjectAtIndexedSubscript →
       lookupInstanceMethod ast iface objectAtIndexedSubscript = some om →
       p.impDecl s om = (none, s1) →
       impSubF ast ext p s tid cid dc = (none, s1)) ∧
    (m.sel = setObjectForKeyedSubscript →
       lookupInstanceMethod ast iface objectForKeyedSubscript = none →
       impSubF ast ext p s tid cid dc = (none, s)) ∧
    (∀ om s1, m.sel = setObjectForKeyedSubscript →
       lookupInstanceMethod ast iface objectForKeyedSubscript = some om →
       p.impDecl s om = (none, s1) →
       impSubF ast ext p s tid cid dc = (none, s1)) := by
  refine ⟨?_, ?_, ?_, ?_⟩
  · intro hsel hlook
    unfold impSubF
    simp only [hd, hk, hiface, hsel, hlook]
    rfl
  · intro om s1 hsel hlook himp
    unfold impSubF
    simp only [hd, hk, hiface, hsel, hlook, himp]
    rfl
  · intro hsel hlook
    unfold impSubF
    simp only [hd, hk, hiface, hsel, hlook]
    rfl
  · intro om s1 hsel hlook himp
    unfold impSubF
    simp only [hd, hk, hiface, hsel, hlook, himp]
    rfl

/-- Witness for C6: a setter-only interface produces no subscript. -/
theorem C6_no_writeonly_subscript_witness :
    let dIface : CDecl :=
      { canon := 1, pctx := .tu, defn := some 1,
        kind := .ifaceCK { iname := some "W", superC := none, protos := [],
                           mems := [3], cats := [] } }
    let dSet : CDecl :=
      { canon := 3, pctx := .inDecl 1,
        kind := .methodCK { sel := setObjectAtIndexedSubscript,
                            instanceM := true,
                            params := [⟨"obj", .absC 20⟩, ⟨"idx", .absC 10⟩],
                            resTy := .voidC, variadic := false } }
    let ast : CAst :=
      { decls := fun i =>
          if i = 1 then some dIface
          else if i = 3 then some dSet else none,
        bound := 4 }
    let ext : Ext :=
      { importName := id, minusFound := true,
        lookupQualified := fun _ _ => [] }
    impSubF ast ext failInterp initState 9 3 (.inDecl 0) =
      (none, initState) := by
  intro dIface dSet ast ext
  exact (C6_no_writeonly_subscript ast ext failInterp initState 9 3
    (.inDecl 0) dSet _ 1 rfl rfl rfl).1 rfl (by decide)

/-- C5 — Subscript synthesis determinism.  (i) A synthesis request for a
(getter, setter) function pair already in the subscript cache returns the
memoized subscript unchanged.  (ii) A first synthesis for a matching pair
(one index pattern, setter value type equal to the getter element type,
setter index type equal to the getter index type) creates one subscript,
wires both accessor thunks to it, and memoizes it under the (getter,
setter) pair.  (iii) Whichever accessor method the synthesis starts from —
getter looking up the setter or setter looking up the getter — it reaches
the same (getter, setter) key and returns the same memoized declaration.
(iv) In the concrete `Container` scenario, importing the getter then the
setter and importing the setter then the getter both produce the class with
the same single subscript declaration (id 5), with both accessor thunks
(ids 3 and 4) attached, memoized under the imported (getter, setter)
function pair (ids 1 and 2). -/
theorem C5_subscript_determinism :
    (∀ (ext : Ext) (s : IState) (g : Nat) (sOpt : Option Nat) (dc : TCtx)
       (S : Nat), s.subs (some g, sOpt) = some S →
         impSubFinish ext s g sOpt dc = (some S, s)) ∧
    (∀ (ext : Ext) (s : IState) (cdc : Nat) (cdd : TDeclData)
       (su : Option TType) (ps ms exl : List Nat) (g n : Nat)
       (gd nd : TDeclData) (gf sf : FuncData) (A B σ : TType) (i : Pat)
       (ti : TType) (v j : Pat) (tj : TType),
       s.arena cdc = some cdd → cdd.kind = .classK su ps ms exl →
       s.arena g = some gd → gd.kind = .funcK gf →
       gf.ty = .fnT A (.fnT B σ) →
       gf.argPats.get? 1 = some (.tupleP [i] ti) →
       s.arena n = some nd → nd.kind = .funcK sf →
       sf.bodyPats.get? 1 = some (.tupleP [v, j] tj) →
       v.pty = σ → j.pty = i.pty →
       s.subs (some g, some n) = none →
       ext.lookupQualified (.namedT cdc) "__subscript" = [] →
       cdc < s.nextId → g < s.nextId → n < s.nextId →
       ∃ S gth sth s',
         impSubFinish ext s g (some n) (.inDecl cdc) = (some S, s') ∧
         s'.subs (some g, some n) = some S ∧
         (∃ sd sub, s'.arena S = some sd ∧ sd.kind = .subK sub ∧
            sub.getterF = gth ∧ sub.setterF = some sth) ∧
         (∃ gtd gtf, s'.arena gth = some gtd ∧ gtd.kind = .funcK gtf ∧
            gtf.getterOf = some S) ∧
         (∃ std stf, s'.arena sth = some std ∧ std.kind = .funcK stf ∧
            stf.setterOf = some S)) ∧
    (∀ (ast : CAst) (ext : Ext) (p : Interp) (s s1 : IState)
       (tid cid : Nat) (dc : TCtx) (d : CDecl) (m : MethodData)
       (iface om n S : Nat),
       ast.decls cid = some d → d.kind = .methodCK m →
       m.sel = objectAtIndexedSubscript →
       getClassInterfaceOf ast d = some iface →
       lookupInstanceMethod ast iface setObjectAtIndexedSubscript =
         some om →
       p.impDecl s om = (some n, s1) →
       (∃ nd nf, s1.arena n = some nd ∧ nd.kind = .funcK nf ∧
          nf.isStat = false) →
       s1.subs (some tid, some n) = some S →
       impSubF ast ext p s tid cid dc = (some S, s1)) ∧
    (∀ (ast : CAst) (ext : Ext) (p : Interp) (s s1 : IState)
       (tid cid : Nat) (dc : TCtx) (d : CDecl) (m : MethodData)
       (iface om g S : Nat),
       ast.decls cid = some d → d.kind = .methodCK m →
       m.sel = setObjectAtIndexedSubscript →
       getClassInterfaceOf ast d = some iface →
       lookupInstanceMethod ast iface objectAtIndexedSubscript = some om →
       p.impDecl s om = (some g, s1) →
       (∃ gd gf, s1.arena g = some gd ∧ gd.kind = .funcK gf ∧
          gf.isStat = false) →
       s1.subs (some g, some tid) = some S →
       impSubF ast ext p s tid cid dc = (some S, s1)) ∧
    (subMembersOf c5MN 0 = [5] ∧ subMembersOf c5NM 0 = [5] ∧
     (c5MN.arena 0).map (fun d => d.kind.membersOf) = some [5, 1, 2] ∧
     (c5NM.arena 0).map (fun d => d.kind.membersOf) = some [5, 1, 2] ∧
     c5MN.subs (some 1, some 2) = some 5 ∧
     c5NM.subs (some 1, some 2) = some 5 ∧
     (c5MN.arena 5).map (fun d =>
        match d.kind with
        | .subK sub => some (sub.getterF, sub.setterF)
        | _ => none) = some (some (3, some 4)) ∧
     (c5NM.arena 5).map (fun d =>
        match d.kind with
        | .subK sub => some (sub.getterF, sub.setterF)
        | _ => none) = some (some (3, some 4)) ∧
     (c5MN.arena 1).map (fun d => d.clangNode) = some (some 2) ∧
     (c5MN.arena 2).map (fun d => d.clangNode) = some (some 3)) := by
  refine ⟨?_, ?_, ?_, ?_, ?_⟩
  · intro ext s g sOpt dc S hmemo
    unfold impSubFinish
    simp only [hmemo]
  · intro ext s cdc cdd su ps ms exl g n gd nd gf sf A B σ i ti v j tj
      hcdc hcdk hg hgk hgty hgargs hn hnk hnbody hv hj hmemo hlkp hcLt hgLt
      hnLt
    have hgne1 : g ≠ s.nextId := by omega
    have hnne1 : n ≠ s.nextId := by omega
    have hcne1 : cdc ≠ s.nextId := by omega
    have hcne2 : cdc ≠ s.nextId + 1 := by omega
    have hcne3 : cdc ≠ s.nextId + 2 := by omega
    have e1 : s.nextId ≠ s.nextId + 1 := by omega
    have e2 : s.nextId + 1 ≠ s.nextId + 2 := by omega
    have e3 : s.nextId ≠ s.nextId + 2 := by omega
    unfold impSubFinish
    simp only [hmemo, hg, hgk, hgty, hgargs, hn, hnk, hnbody, hv, hj]
    simp only [List.length_cons, List.length_nil, Nat.zero_add, ne_eq,
      List.get?_cons_zero, List.get?_cons_succ, Nat.reduceAdd,
      OfNat.ofNat_ne_one, not_false_eq_true, eq_self_iff_true,
      not_true_eq_false, if_false, ite_false, reduceIte]
    simp only [hv, hj, eq_self_iff_true, not_true_eq_false, if_false,
      ite_false]
    unfold buildGetterThunk buildSetterThunk declaredTypeOfContext
    simp only [hg, hgk, hgty, hcdc, hcdk, IState.alloc, upd, hnne1, hcne1,
      hcne2, hcne3, e1, e2, e3, hn, hnk, hnbody, List.get?_cons_zero,
      List.get?_cons_succ, List.cons_append, List.nil_append,
      eq_self_iff_true, if_true, ite_true, if_false, ite_false, reduceIte]
    have f1 : s.nextId + 1 ≠ s.nextId := by omega
    have f2 : s.nextId + 1 ≠ s.nextId + 1 + 1 := by omega
    have f4 : s.nextId ≠ s.nextId + 1 + 1 := by omega
    have f7 : cdc ≠ s.nextId + 1 + 1 := by omega
    have g1 : s.nextId + 1 + 1 ≠ s.nextId := by omega
    have g2 : s.nextId + 1 + 1 ≠ s.nextId + 1 := by omega
    unfold makeGetterS makeSetterS IState.mut
    simp only [upd, f1, f2, f4, e1, hcne1, hcne2, f7, g1, g2, hcdc, hcdk,
      eq_self_iff_true, if_true, ite_true, if_false, ite_false]
    simp only [hlkp, List.findSome?_nil]
    refine ⟨s.nextId + 1 + 1, s.nextId, s.nextId + 1, _, rfl, ?_, ?_, ?_, ?_⟩
    · simp only [upd, Prod.mk.injEq, eq_self_iff_true, and_true, true_and,
        reduceCtorEq, and_false, if_true, ite_true, if_false, ite_false]
    · refine ⟨⟨"__subscript", .inDecl cdc, none,
          .subK ⟨Pat.tupleP [i] (mkTupleT [i.pty]), σ,
            .fnT (Pat.tupleP [i] (mkTupleT [i.pty])).pty σ, s.nextId,
            some (s.nextId + 1), none⟩⟩,
        ⟨Pat.tupleP [i] (mkTupleT [i.pty]), σ,
          .fnT (Pat.tupleP [i] (mkTupleT [i.pty])).pty σ, s.nextId,
          some (s.nextId + 1), none⟩, ?_, rfl, rfl, rfl⟩
      simp only [upd, f1, f2, f4, e1, g1, g2, eq_self_iff_true, if_true,
        ite_true, if_false, ite_false]
    · refine ⟨⟨"", gd.ctx, none, .funcK
          ⟨List.foldr (fun pa acc => TType.fnT pa.pty acc) σ
             [mkSelfPat (TType.namedT cdc), Pat.tupleP [i] (mkTupleT [i.pty]),
              Pat.tupleP [] TType.tupleNilT],
           [mkSelfPat (TType.namedT cdc), Pat.tupleP [i] (mkTupleT [i.pty]),
            Pat.tupleP [] TType.tupleNilT],
           [mkSelfPat (TType.namedT cdc), Pat.tupleP [i] (mkTupleT [i.pty]),
            Pat.tupleP [] TType.tupleNilT],
           false, none, none, some (s.nextId + 1 + 1), none⟩⟩,
        ⟨List.foldr (fun pa acc => TType.fnT pa.pty acc) σ
           [mkSelfPat (TType.namedT cdc), Pat.tupleP [i] (mkTupleT [i.pty]),
            Pat.tupleP [] TType.tupleNilT],
         [mkSelfPat (TType.namedT cdc), Pat.tupleP [i] (mkTupleT [i.pty]),
          Pat.tupleP [] TType.tupleNilT],
         [mkSelfPat (TType.namedT cdc), Pat.tupleP [i] (mkTupleT [i.pty]),
          Pat.tupleP [] TType.tupleNilT],
         false, none, none, some (s.nextId + 1 + 1), none⟩, ?_, rfl, rfl⟩
      simp only [upd, f1, f2, f4, e1, g1, g2, eq_self_iff_true, if_true,
        ite_true, if_false, ite_false]
    · refine ⟨⟨"", .inDecl cdc, none, .funcK
          ⟨List.foldr (fun pa acc => TType.fnT pa.pty acc) TType.tupleNilT
             [mkSelfPat (TType.namedT cdc), Pat.tupleP [j] (mkTupleT [j.pty]),
              Pat.tupleP [v] (mkTupleT [v.pty])],
           [mkSelfPat (TType.namedT cdc), Pat.tupleP [j] (mkTupleT [j.pty]),
            Pat.tupleP [v] (mkTupleT [v.pty])],
           [mkSelfPat (TType.namedT cdc), Pat.tupleP [j] (mkTupleT [j.pty]),
            Pat.tupleP [v] (mkTupleT [v.pty])],
           false, none, none, none, some (s.nextId + 1 + 1)⟩⟩,
        ⟨List.foldr (fun pa acc => TType.fnT pa.pty acc) TType.tupleNilT
           [mkSelfPat (TType.namedT cdc), Pat.tupleP [j] (mkTupleT [j.pty]),
            Pat.tupleP [v] (mkTupleT [v.pty])],
         [mkSelfPat (TType.namedT cdc), Pat.tupleP [j] (mkTupleT [j.pty]),
          Pat.tupleP [v] (mkTupleT [v.pty])],
         [mkSelfPat (TType.namedT cdc), Pat.tupleP [j] (mkTupleT [j.pty]),
          Pat.tupleP [v] (mkTupleT [v.pty])],
         false, none, none, none, some (s.nextId + 1 + 1)⟩, ?_, rfl, rfl⟩
      simp only [upd, f1, f2, f4, e1, g1, g2, eq_self_iff_true, if_true,
        ite_true, if_false, ite_false]
  · intro ast ext p s s1 tid cid dc d m iface om n S hd hk hsel hiface
      hlook himp hex hmemo
    obtain ⟨ndd, nff, harena, hkind, hstat⟩ := hex
    unfold impSubF
    simp only [hd, hk, hiface, hsel, hlook, himp, harena, hkind, hstat,
      Bool.false_eq_true, if_false, ite_false]
    unfold impSubFinish
    simp only [hmemo]
    rfl
  · intro ast ext p s s1 tid cid dc d m iface om g S hd hk hsel hiface
      hlook himp hex hmemo
    obtain ⟨gdd, gff, harena, hkind, hstat⟩ := hex
    unfold impSubF
    simp only [hd, hk, hiface, hsel, hlook, himp, harena, hkind, hstat,
      Bool.false_eq_true, if_false, ite_false]
    unfold impSubFinish
    simp only [hmemo]
    rfl
  · refine ⟨rfl, rfl, rfl, rfl, rfl, rfl, rfl, rfl, rfl, rfl⟩

/-- Witness for C5: a memoized (getter, setter) pair returns its cached
subscript unchanged. -/
theorem C5_subscript_determinism_witness :
    let s0 : IState :=
      { nextId := 6, arena := fun _ => none, cache := fun _ => none,
        mirrored := fun _ => none,
        subs := upd (fun _ => none) (some 1, some 2) 5, externals := [] }
    impSubFinish c5Ext s0 1 (some 2) .clangModule = (some 5, s0) := by
  intro s0
  exact C5_subscript_determinism.1 c5Ext s0 1 (some 2) .clangModule 5 rfl

/-- C8 — Option-set enum import.  (i) A foreign enum with a usable name and
a translatable underlying type imports as one struct whose members are
exactly the synthesized constructor (taking the underlying type), the
pattern binding, and the one stored `value` variable of the underlying
type; the struct is cached under the enum's canonical declaration, and the
enumerators are then imported in order from that state.  (ii) An
enumerator of an option-set enum with an unseen canonical declaration is
imported as a constant: a variable of the imported enum type whose
synthesized getter returns the literal value wrapped in a construction of
that type, and the result is cached.  (iii) In the concrete scenario,
`enum Color { Red = 0, Green = 1, Blue = 2 }` imports as struct `Color`
(id 0, members constructor 3, pattern binding 2, variable 1) and three
construction-built constants `Red`/`Green`/`Blue` (ids 4, 6, 8) of type
`Color` with getters (ids 5, 7, 9) returning 0, 1, 2. -/
theorem C8_option_set_enum :
    (∀ (ast : CAst) (ext : Ext) (p : Interp) (s : IState) (d dd : CDecl)
       (j : Nat) (e : EnumData) (nm : String) (underlying : TType),
       d.defn = some j → ast.decls j = some dd → dd.kind = .enumCK e →
       e.ename = some nm → ¬(ext.importName nm = "") → dd.pctx = .tu →
       (∀ st, p.impTy st e.intTy = (some underlying, st)) →
       ∃ sid varId pbId ctorId s9,
         visitEnumF ast ext p s d =
           (some sid, false,
            e.enumerators.foldl (fun st ec => (p.impDecl st ec).2) s9) ∧
         s9.arena sid = some ⟨ext.importName nm, .clangModule,
           some dd.canon, .structK [ctorId, pbId, varId]⟩ ∧
         s9.arena varId = some ⟨"value", .inDecl sid, none,
           .varK ⟨underlying, none, none, none⟩⟩ ∧
         s9.arena pbId = some ⟨"", .inDecl sid, none,
           .patBindK (.typedP (.namedP "value" underlying) underlying)⟩ ∧
         s9.arena ctorId = some ⟨"init", .inDecl sid, none,
           .ctorK ⟨.fnT (.metaT (.namedT sid))
                     (.fnT (mkTupleT [underlying]) (.namedT sid)),
                   .fnT (.namedT sid)
                     (.fnT (mkTupleT [underlying]) (.namedT sid)),
                   .tupleP [.typedP (.namedP "value" underlying) underlying]
                     (mkTupleT [underlying]), none⟩⟩ ∧
         s9.cache dd.canon = some (some sid)) ∧
    (∀ (ast : CAst) (ext : Ext) (p : Interp) (s : IState) (d : CDecl)
       (c : EnumConstData) (eid : Nat) (ed : CDecl) (e : EnumData)
       (fctx : CCtx) (dc : TCtx) (ty : TType) (nm : String),
       c.cname = some nm → ¬(ext.importName nm = "") →
       d.pctx = .inDecl eid → ast.decls eid = some ed →
       ed.kind = .enumCK e → classifyEnum ext e = .options →
       nearestFileCtx ast (ast.bound + 1) ed.pctx = some fctx →
       p.impDeclCtx s fctx = (some dc, s) →
       p.impTy s (.tagC eid) = (some ty, s) →
       s.cache d.canon = none → ¬(c.val < 0) →
       ∃ vid fid s',
         visitEnumConstF ast ext p s d c = (some vid, false, s') ∧
         s'.cache d.canon = some (some vid) ∧
         s'.arena vid = some ⟨ext.importName nm, dc, none,
           .varK ⟨ty, some fid, none, none⟩⟩ ∧
         s'.arena fid = some ⟨"", dc, none,
           .funcK ⟨.fnT .tupleNilT ty, [.tupleP [] .tupleNilT],
                   [.tupleP [] .tupleNilT], false,
                   some (.callE (.metatypeE ty) (.intLit c.val.natAbs)),
                   none, some vid, none⟩⟩) ∧
    (importDecl c8Ast c8Ext 20 initState 0 = (some 0, c8S) ∧
     c8S.arena 0 = some ⟨"Color", .clangModule, some 0,
       .structK [3, 2, 1]⟩ ∧
     c8S.arena 1 = some ⟨"value", .inDecl 0, none,
       .varK ⟨.intT, none, none, none⟩⟩ ∧
     c8S.arena 2 = some ⟨"", .inDecl 0, none,
       .patBindK (.typedP (.namedP "value" .intT) .intT)⟩ ∧
     c8S.arena 3 = some ⟨"init", .inDecl 0, none,
       .ctorK ⟨.fnT (.metaT (.namedT 0))
                 (.fnT (mkTupleT [.intT]) (.namedT 0)),
               .fnT (.namedT 0) (.fnT (mkTupleT [.intT]) (.namedT 0)),
               .tupleP [.typedP (.namedP "value" .intT) .intT]
                 (mkTupleT [.intT]), none⟩⟩ ∧
     c8S.cache 1 = some (some 4) ∧ c8S.cache 2 = some (some 6) ∧
     c8S.cache 3 = some (some 8) ∧
     c8S.arena 4 = some ⟨"Red", .clangModule, some 1,
       .varK ⟨.namedT 0, some 5, none, none⟩⟩ ∧
     c8S.arena 6 = some ⟨"Green", .clangModule, some 2,
       .varK ⟨.namedT 0, some 7, none, none⟩⟩ ∧
     c8S.arena 8 = some ⟨"Blue", .clangModule, some 3,
       .varK ⟨.namedT 0, some 9, none, none⟩⟩ ∧
     (c8S.arena 5).map (fun d =>
        match d.kind with | .funcK f => f.body | _ => none) =
       some (some (.callE (.metatypeE (.namedT 0)) (.intLit 0))) ∧
     (c8S.arena 7).map (fun d =>
        match d.kind with | .funcK f => f.body | _ => none) =
       some (some (.callE (.metatypeE (.namedT 0)) (.intLit 1))) ∧
     (c8S.arena 9).map (fun d =>
        match d.kind with | .funcK f => f.body | _ => none) =
       some (some (.callE (.metatypeE (.namedT 0)) (.intLit 2)))) := by
  refine ⟨?_, ?_, ?_⟩
  · intro ast ext p s d dd j e nm underlying hdef hj hdd hname hnm hpctx
      himpTy
    have q01 : s.nextId ≠ s.nextId + 1 := by omega
    have q02 : s.nextId ≠ s.nextId + 1 + 1 := by omega
    have q03 : s.nextId ≠ s.nextId + 1 + 1 + 1 := by omega
    have q10 : s.nextId + 1 ≠ s.nextId := by omega
    have q12 : s.nextId + 1 ≠ s.nextId + 1 + 1 := by omega
    have q13 : s.nextId + 1 ≠ s.nextId + 1 + 1 + 1 := by omega
    have q20 : s.nextId + 1 + 1 ≠ s.nextId := by omega
    have q21 : s.nextId + 1 + 1 ≠ s.nextId + 1 := by omega
    have q23 : s.nextId + 1 + 1 ≠ s.nextId + 1 + 1 + 1 := by omega
    have q30 : s.nextId + 1 + 1 + 1 ≠ s.nextId := by omega
    have q31 : s.nextId + 1 + 1 + 1 ≠ s.nextId + 1 := by omega
    have q32 : s.nextId + 1 + 1 + 1 ≠ s.nextId + 1 + 1 := by omega
    unfold visitEnumF impDeclCtxOfF classifyEnum
    simp only [hdef, hj, hdd, hname, hnm, hpctx, if_false, ite_false]
    unfold createValueConstructor setMembersS setClangNodeS IState.mut
      addExternalS
    simp only [himpTy, IState.alloc, upd, q01, q02, q03, q10, q12, q13,
      q20, q21, q23, q30, q31, q32, eq_self_iff_true, if_true, ite_true,
      if_false, ite_false, List.foldr_cons, List.foldr_nil, List.map_cons,
      List.map_nil]
    refine ⟨s.nextId, s.nextId + 1, s.nextId + 1 + 1, s.nextId + 1 + 1 + 1,
      _, rfl, ?_, ?_, ?_, ?_, ?_⟩
    · simp only [upd, q01, q02, q03, q10, q12, q13, q20, q21, q23, q30,
        q31, q32, eq_self_iff_true, if_true, ite_true, if_false, ite_false]
    · simp only [upd, q01, q02, q03, q10, q12, q13, q20, q21, q23, q30,
        q31, q32, eq_self_iff_true, if_true, ite_true, if_false, ite_false]
    · simp only [upd, q01, q02, q03, q10, q12, q13, q20, q21, q23, q30,
        q31, q32, eq_self_iff_true, if_true, ite_true, if_false, ite_false]
    · simp only [upd, q01, q02, q03, q10, q12, q13, q20, q21, q23, q30,
        q31, q32, eq_self_iff_true, if_true, ite_true, if_false, ite_false]
    · simp only [upd, eq_self_iff_true, if_true, ite_true]
  · intro ast ext p s d c eid ed e fctx dc ty nm hcname hnm hpctx hed he
      hcls hfctx himpCtx himpTy hcache hval
    have q01 : s.nextId ≠ s.nextId + 1 := by omega
    have q10 : s.nextId + 1 ≠ s.nextId := by omega
    unfold visitEnumConstF extName
    simp only [hcname, hnm, hpctx, hed, he, hcls, hfctx, himpCtx, himpTy,
      hcache, if_false, ite_false]
    unfold createConstant makeGetterS setAccessorsS IState.mut addExternalS
    simp only [hval, IState.alloc, upd, q01, q10, eq_self_iff_true,
      if_true, ite_true, if_false, ite_false]
    refine ⟨s.nextId, s.nextId + 1, _, rfl, ?_, ?_, ?_⟩
    · simp only [upd, eq_self_iff_true, if_true, ite_true]
    · simp only [upd, q01, q10, eq_self_iff_true, if_true, ite_true,
        if_false, ite_false]
    · simp only [upd, q01, q10, eq_self_iff_true, if_true, ite_true,
        if_false, ite_false]
  · exact ⟨rfl, rfl, rfl, rfl, rfl, rfl, rfl, rfl, rfl, rfl, rfl, rfl,
      rfl, rfl⟩

/-- Witness for C8: the `Color` enum scenario satisfies the struct-creation
lemma at the real importer operations. -/
theorem C8_option_set_enum_witness :
    ∃ sid varId pbId ctorId s9,
      visitEnumF c8Ast c8Ext (interp c8Ast c8Ext 19) initState c8Enum =
        (some sid, false,
         [1, 2, 3].foldl
           (fun st ec => ((interp c8Ast c8Ext 19).impDecl st ec).2) s9) ∧
      s9.arena sid = some ⟨"Color", .clangModule, some 0,
        .structK [ctorId, pbId, varId]⟩ ∧
      s9.arena varId = some ⟨"value", .inDecl sid, none,
        .varK ⟨.intT, none, none, none⟩⟩ ∧
      s9.arena pbId = some ⟨"", .inDecl sid, none,
        .patBindK (.typedP (.namedP "value" .intT) .intT)⟩ ∧
      s9.arena ctorId = some ⟨"init", .inDecl sid, none,
        .ctorK ⟨.fnT (.metaT (.namedT sid))
                  (.fnT (mkTupleT [.intT]) (.namedT sid)),
                .fnT (.namedT sid) (.fnT (mkTupleT [.intT]) (.namedT sid)),
                .tupleP [.typedP (.namedP "value" .intT) .intT]
                  (mkTupleT [.intT]), none⟩⟩ ∧
      s9.cache 0 = some (some sid) := by
  exact C8_option_set_enum.1 c8Ast c8Ext (interp c8Ast c8Ext 19) initState
    c8Enum c8Enum 0 ⟨some "Color", none, .intC, [1, 2, 3]⟩ "Color" .intT
    rfl rfl rfl rfl (by decide) rfl (fun st => rfl)

/-- C10 — Enum constants live at the nearest file-scope context.  (i) A
bare-constants enumerator is produced as a constant whose declaration
context is the target context imported for the nearest enclosing
file-scope context of the owning enum (with the plain literal as getter
body).  (ii) The same holds for an option-set enumerator.  (iii) In the
nested scenario, enum `E` inside record `R` imports as a struct whose
context is the imported record (id 0), while its constant `A` — and the
constant `B` of the unnamed nested enum — land at the translation-unit
module context, the import of the nearest file-scope context `tu` of the
enums' record parent. -/
theorem C10_enum_constant_context :
    (∀ (ast : CAst) (ext : Ext) (p : Interp) (s : IState) (d : CDecl)
       (c : EnumConstData) (eid : Nat) (ed : CDecl) (e : EnumData)
       (fctx : CCtx) (dc : TCtx) (ty : TType) (nm : String),
       c.cname = some nm → ¬(ext.importName nm = "") →
       d.pctx = .inDecl eid → ast.decls eid = some ed →
       ed.kind = .enumCK e → classifyEnum ext e = .constants →
       nearestFileCtx ast (ast.bound + 1) ed.pctx = some fctx →
       p.impDeclCtx s fctx = (some dc, s) →
       p.impTy s (.tagC eid) = (some ty, s) →
       s.cache d.canon = none → ¬(c.val < 0) →
       ∃ vid fid s',
         visitEnumConstF ast ext p s d c = (some vid, false, s') ∧
         s'.arena vid = some ⟨ext.importName nm, dc, none,
           .varK ⟨ty, some fid, none, none⟩⟩ ∧
         s'.arena fid = some ⟨"", dc, none,
           .funcK ⟨.fnT .tupleNilT ty, [.tupleP [] .tupleNilT],
                   [.tupleP [] .tupleNilT], false,
                   some (.intLit c.val.natAbs), none, some vid, none⟩⟩) ∧
    (∀ (ast : CAst) (ext : Ext) (p : Interp) (s : IState) (d : CDecl)
       (c : EnumConstData) (eid : Nat) (ed : CDecl) (e : EnumData)
       (fctx : CCtx) (dc : TCtx) (ty : TType) (nm : String),
       c.cname = some nm → ¬(ext.importName nm = "") →
       d.pctx = .inDecl eid → ast.decls eid = some ed →
       ed.kind = .enumCK e → classifyEnum ext e = .options →
       nearestFileCtx ast (ast.bound + 1) ed.pctx = some fctx →
       p.impDeclCtx s fctx = (some dc, s) →
       p.impTy s (.tagC eid) = (some ty, s) →
       s.cache d.canon = none → ¬(c.val < 0) →
       ∃ vid s',
         visitEnumConstF ast ext p s d c = (some vid, false, s') ∧
         (s'.arena vid).map (fun dd => dd.ctx) = some dc) ∧
    (importDecl c10Ast c10Ext 20 initState 2 = (some 5, c10S) ∧
     c10S.arena 1 = some ⟨"E", .inDecl 0, some 1, .structK [4, 3, 2]⟩ ∧
     c10S.arena 5 = some ⟨"A", .clangModule, some 2,
       .varK ⟨.namedT 1, some 6, none, none⟩⟩ ∧
     importDecl c10Ast c10Ext 20 c10S 4 = (some 7, c10S2) ∧
     c10S2.arena 7 = some ⟨"B", .clangModule, some 4,
       .varK ⟨.intT, some 8, none, none⟩⟩ ∧
     (c10S2.arena 8).map (fun d =>
        match d.kind with | .funcK f => f.body | _ => none) =
       some (some (.intLit 7)) ∧
     nearestFileCtx c10Ast (c10Ast.bound + 1) (.inDecl 0) = some .tu) := by
  refine ⟨?_, ?_, ?_⟩
  · intro ast ext p s d c eid ed e fctx dc ty nm hcname hnm hpctx hed he
      hcls hfctx himpCtx himpTy hcache hval
    have q01 : s.nextId ≠ s.nextId + 1 := by omega
    have q10 : s.nextId + 1 ≠ s.nextId := by omega
    unfold visitEnumConstF extName
    simp only [hcname, hnm, hpctx, hed, he, hcls, hfctx, himpCtx, himpTy,
      hcache, if_false, ite_false]
    unfold createConstant makeGetterS setAccessorsS IState.mut addExternalS
    simp only [hval, IState.alloc, upd, q01, q10, eq_self_iff_true,
      if_true, ite_true, if_false, ite_false]
    refine ⟨s.nextId, s.nextId + 1, _, rfl, ?_, ?_⟩
    · simp only [upd, q01, q10, eq_self_iff_true, if_true, ite_true,
        if_false, ite_false]
    · simp only [upd, q01, q10, eq_self_iff_true, if_true, ite_true,
        if_false, ite_false]
  · intro ast ext p s d c eid ed e fctx dc ty nm hcname hnm hpctx hed he
      hcls hfctx himpCtx himpTy hcache hval
    have q01 : s.nextId ≠ s.nextId + 1 := by omega
    have q10 : s.nextId + 1 ≠ s.nextId := by omega
    unfold visitEnumConstF extName
    simp only [hcname, hnm, hpctx, hed, he, hcls, hfctx, himpCtx, himpTy,
      hcache, if_false, ite_false]
    unfold createConstant makeGetterS setAccessorsS IState.mut addExternalS
    simp only [hval, IState.alloc, upd, q01, q10, eq_self_iff_true,
      if_true, ite_true, if_false, ite_false]
    refine ⟨s.nextId, _, rfl, ?_⟩
    simp only [upd, q01, q10, eq_self_iff_true, if_true, ite_true,
      if_false, ite_false]
    rfl
  · exact ⟨rfl, rfl, rfl, rfl, rfl, rfl, rfl⟩

/-- Witness for C10: enumerator `B` of the unnamed nested enum, imported
from the state that already holds `R`, `E` and `A`, lands at the module
context with the plain literal 7 as its getter body. -/
theorem C10_enum_constant_context_witness :
    ∃ vid fid s',
      visitEnumConstF c10Ast c10Ext (interp c10Ast c10Ext 19) c10S c10B
          ⟨some "B", 7⟩ = (some vid, false, s') ∧
      s'.arena vid = some ⟨"B", .clangModule, none,
        .varK ⟨.intT, some fid, none, none⟩⟩ ∧
      s'.arena fid = some ⟨"", .clangModule, none,
        .funcK ⟨.fnT .tupleNilT .intT, [.tupleP [] .tupleNilT],
                [.tupleP [] .tupleNilT], false, some (.intLit 7),
                none, some vid, none⟩⟩ := by
  exact C10_enum_constant_context.1 c10Ast c10Ext
    (interp c10Ast c10Ext 19) c10S c10B ⟨some "B", 7⟩ 3 c10Anon
    ⟨none, none, .intC, [4]⟩ .tu .clangModule .intT "B"
    rfl (by decide) rfl rfl rfl rfl rfl rfl rfl rfl (by decide)

/-- C9 — Member-list filtering.  (i) A method associated to a property
that itself imports successfully contributes nothing to the member list at
its step of the member loop: the accumulated members are returned
unchanged.  (ii) An imported method from which the special-declaration
importer synthesizes an unseen constructor contributes exactly the
constructor: the plain imported method is not appended.  (iii) In the
concrete `Foo` scenario, the class's members are exactly the constructor
(id 6), the property's variable (id 2) and the `alloc` method (id 5),
while the imported getter method (id 1, from foreign method 2) and the
plain imported init method (id 4, from foreign method 3) exist in the
arena but are not members. -/
theorem C9_member_filtering :
    (∀ (ast : CAst) (p : Interp) (swiftCtx : TCtx)
       (members known : List Nat) (st : IState) (mid : Nat) (nd : CDecl)
       (m : MethodData) (pid member : Nat) (st1 : IState) (v : Nat)
       (st2 : IState),
       ast.decls mid = some nd → nd.kind = .methodCK m →
       m.propertyOf = some pid →
       p.impDecl st mid = (some member, st1) →
       p.impDecl st1 pid = (some v, st2) →
       impMembersStep ast p swiftCtx (members, known, st) mid =
         (members, known, st2)) ∧
    (∀ (ast : CAst) (p : Interp) (swiftCtx : TCtx)
       (members known : List Nat) (st : IState) (mid : Nat) (nd : CDecl)
       (m : MethodData) (member : Nat) (st1 : IState) (sp : Nat)
       (st2 : IState) (cd : TDeclData),
       ast.decls mid = some nd → nd.kind = .methodCK m →
       m.propertyOf = none →
       p.impDecl st mid = (some member, st1) →
       p.impSpecial st1 member swiftCtx = (some sp, st2) →
       known.contains sp = false →
       st2.arena sp = some cd → (∃ cdk, cd.kind = .ctorK cdk) →
       impMembersStep ast p swiftCtx (members, known, st) mid =
         (members ++ [sp], known ++ [sp], st2)) ∧
    (importDecl c9Ast c9Ext 20 initState 1 = (some 0, c9S) ∧
     (c9S.arena 0).map (fun d => d.kind.membersOf) = some [6, 2, 5] ∧
     (c9S.arena 6).map (fun d => (d.clangNode, d.kind.tag)) =
       some (some 3, .ctorTag) ∧
     (c9S.arena 2).map (fun d => (d.clangNode, d.kind.tag)) =
       some (some 4, .varTag) ∧
     (c9S.arena 1).map (fun d => (d.clangNode, d.kind.tag)) =
       some (some 2, .funcTag) ∧
     (c9S.arena 4).map (fun d => (d.clangNode, d.kind.tag)) =
       some (some 3, .funcTag) ∧
     c9S.cache 2 = some (some 1) ∧ c9S.cache 3 = some (some 4) ∧
     c9S.cache 4 = some (some 2) ∧ c9S.cache 5 = some (some 5)) := by
  refine ⟨?_, ?_, ?_⟩
  · intro ast p swiftCtx members known st mid nd m pid member st1 v st2
      hd hk hprop himp himpP
    unfold impMembersStep
    simp only [hd, hk, hprop, himp, himpP]
  · intro ast p swiftCtx members known st mid nd m member st1 sp st2 cd
      hd hk hprop himp hspec hknown harena hck
    obtain ⟨cdk, hck⟩ := hck
    unfold impMembersStep
    simp only [hd, hk, hprop, himp, hspec, hknown, harena, hck,
      Bool.not_false, if_true, ite_true]
  · exact ⟨rfl, rfl, rfl, rfl, rfl, rfl, rfl, rfl, rfl, rfl⟩

/-- Witness for C9: in the `Foo` scenario, the getter method's step over
the real importer operations leaves the member list unchanged. -/
theorem C9_member_filtering_witness :
    impMembersStep c9Ast (interp c9Ast c9Ext 19) (.inDecl 0)
      ([], [], c9S) 2 = ([], [], c9S) := by
  exact C9_member_filtering.1 c9Ast (interp c9Ast c9Ext 19) (.inDecl 0)
    [] [] c9S 2 c9Getter
    ⟨⟨0, [some "x"]⟩, true, [], .absC 10, false, some 4⟩ 4 1 c9S 2 c9S
    rfl rfl rfl rfl rfl

end ImportDecl
